import Mathlib

/-!
Verification of the numerical engine of the social-metrics A/B experimentation
playground (`src/social_metrics_playground_random_data_toggleable_lines.jsx`).

The JavaScript engine is shallowly embedded:
* 32-bit integer state (the xorshift PRNG state, hash values, mixed seeds) is
  modelled as `ℕ` (resp. `ℤ` for signed int32 intermediates) with explicit
  `% 2^32` wrapping, exactly mirroring the `>>> 0`, `| 0`, `^`, `<<`, `>>>`
  coercions of the source;
* IEEE-754 numbers are modelled as real numbers (`ℝ`), i.e. the algebra of the
  source is kept exactly and rounding error is ignored; the special values
  `Infinity`/`-Infinity`/`NaN`, which matter for the division-by-zero behaviour
  of `computeStats`, are modelled explicitly by the type `JSVal` below;
* functions that return `NaN` as an error signal (`invNorm`, `computeSampleSize`)
  are modelled with `Option`.
-/

/- ===================== Helpers (PRNG, hashing, rounding) ===================== -/

/-- JavaScript `x >>> 0` (ToUint32) applied to an integer value. -/
def toUInt32 (z : ℤ) : ℕ := (z % 4294967296).toNat

/-- JavaScript `x | 0` (ToInt32) applied to an integer value. -/
def toInt32 (z : ℤ) : ℤ := (z + 2147483648) % 4294967296 - 2147483648

/-- One state update of the xorshift32 generator used by `createPRNG`:
`s ^= s << 13; s ^= s >>> 17; s ^= s << 5`, all on 32-bit words.
The state is kept as a natural number `< 2^32`. -/
def xorshift32 (s : ℕ) : ℕ :=
  let s1 := s ^^^ ((s <<< 13) % 4294967296)
  let s2 := s1 ^^^ (s1 >>> 17)
  s2 ^^^ ((s2 <<< 5) % 4294967296)

/-- `createPRNG(seed)` stores the initial internal state `s = seed >>> 0`.
The returned closure `rand` is modelled by `rand` below (explicit state). -/
def createPRNG (seed : ℕ) : ℕ := seed % 4294967296

/-- One call of the closure returned by `createPRNG`: the state is updated by
`xorshift32` and the emitted value is `(s >>> 0) / 4294967295`.
Returns (value, new state); the value is exact, as a rational. -/
def rand (s : ℕ) : ℚ × ℕ := ((xorshift32 s : ℚ) / 4294967295, xorshift32 s)

/-- Internal state of `createPRNG(seed)` after `n` calls of `rand`. -/
def prngState (seed : ℕ) : ℕ → ℕ
  | 0 => createPRNG seed
  | n + 1 => xorshift32 (prngState seed n)

/-- The `n`-th value emitted by `createPRNG(seed)` (`n = 0` is the first call). -/
def prngOut (seed : ℕ) (n : ℕ) : ℚ := (prngState seed (n + 1) : ℚ) / 4294967295

/-- `hashStr`'s loop body: `h = ((h << 5) - h) + s.charCodeAt(i); h |= 0`.
The shift wraps to int32 before the subtraction, and the sum is wrapped by
`|= 0`; `h` is always an int32 value. -/
def hashStep (h : ℤ) (c : Char) : ℤ := toInt32 (toInt32 (h * 32) - h + c.toNat)

/-- `hashStr(s)`: fold `hashStep` over the characters, then `h >>> 0`. -/
def hashStr (s : String) : ℕ := toUInt32 (s.data.foldl hashStep 0)

/-- `clamp(x, lo, hi) = Math.max(lo, Math.min(hi, x))`. -/
def clamp (x lo hi : ℝ) : ℝ := max lo (min hi x)

/-- JavaScript `Math.round` (round half toward positive infinity). -/
noncomputable def jsRound (x : ℝ) : ℤ := ⌊x + 1 / 2⌋

/- ===================== Box–Muller ===================== -/

/-- The `while (u === 0) u = rand()` loop of `boxMuller`: draw from the stream
until a nonzero value appears, with explicit fuel.  For every nonzero state the
first draw is already nonzero (`xorshift32` preserves nonzero states, proved
below), so the fuel is never consumed; from the all-zero state the source loops
forever (the fuel models an arbitrarily deep finite unrolling of that loop). -/
def drawNZ : ℕ → ℕ → ℚ × ℕ
  | 0, s => (0, s)
  | f + 1, s =>
    let (u, s') := rand s
    if u = 0 then drawNZ f s' else (u, s')

/-- `boxMuller(rand)`: two uniform draws `u, v` (each redrawn while zero),
returning `sqrt(-2 ln u) · cos(2 π v)` together with the advanced state. -/
noncomputable def boxMuller (s : ℕ) : ℝ × ℕ :=
  let (u, s1) := drawNZ 4294967296 s
  let (v, s2) := drawNZ 4294967296 s1
  (Real.sqrt (-2 * Real.log (u : ℝ)) * Real.cos (2 * Real.pi * (v : ℝ)), s2)

/- ===================== Normal distribution functions ===================== -/

/-- Standard normal CDF (Abramowitz & Stegun 7.1.26), exactly as in the source:
a polynomial in `t = 1/(1 + 0.2316419 |x|)` scaled by the density, with the
negative branch obtained by reflection (`x >= 0 ? prob : 1 - prob`). -/
noncomputable def stdNormCDF (x : ℝ) : ℝ :=
  let t : ℝ := 1 / (1 + 0.2316419 * |x|)
  let d : ℝ := 0.3989423 * Real.exp (-(x * x) / 2)
  let prob : ℝ := 1 - d * t *
    (1.330274429 + t * (-1.821255978 + t * (1.781477937 + t * (-0.356563782 + t * 0.319381530))))
  if 0 ≤ x then prob else 1 - prob

/-- `twoTailedP(z) = 2 (1 - stdNormCDF |z|)`. -/
noncomputable def twoTailedP (z : ℝ) : ℝ := 2 * (1 - stdNormCDF |z|)

/-- Inverse standard normal CDF (Acklam's approximation).  The source returns
`NaN` for `p ≤ 0` or `p ≥ 1` (and for `NaN` input, which has no counterpart in
`ℝ`); this is modelled by `none`.  The three regimes (low tail, central,
high tail) and all coefficients are copied verbatim from the source. -/
noncomputable def invNorm (p : ℝ) : Option ℝ :=
  if p ≤ 0 ∨ 1 ≤ p then none
  else if p < 0.02425 then
    some (
      let q := Real.sqrt (-2 * Real.log p);
      (((((-0.007784894002430293 * q + -0.3223964580411365) * q + -2.400758277161838) * q +
        -2.549732539343734) * q + 4.374664141464968) * q + 2.938163982698783) /
      ((((0.007784695709041462 * q + 0.3224671290700398) * q + 2.445134137142996) * q +
        3.754408661907416) * q + 1))
  else if 1 - 0.02425 < p then
    some (
      let q := Real.sqrt (-2 * Real.log (1 - p));
      -((((((-0.007784894002430293 * q + -0.3223964580411365) * q + -2.400758277161838) * q +
        -2.549732539343734) * q + 4.374664141464968) * q + 2.938163982698783)) /
      ((((0.007784695709041462 * q + 0.3224671290700398) * q + 2.445134137142996) * q +
        3.754408661907416) * q + 1))
  else
    some (
      let q := p - 0.5;
      let r := q * q;
      (((((-39.69683028665376 * r + 220.9460984245205) * r + -275.9285104469687) * r +
        138.3577518672690) * r + -30.66479806614716) * r + 2.506628277459239) * q /
      (((((-54.47609879822406 * r + 161.5858368580409) * r + -155.6989798598866) * r +
        66.80131188771972) * r + -13.28068155288572) * r + 1))

/-- `computeSampleSize({sigma2, mdeAbs, alpha, power})`: target n per arm for a
two-sample difference in means.  `NaN` results (from out-of-range quantile
arguments) and the guarded invalid inputs are modelled by `none`; otherwise
`n = max(2, ceil(2 (zα + zPower)² σ² / mdeAbs²))`. -/
noncomputable def computeSampleSize (sigma2 mdeAbs alpha power : ℝ) : Option ℤ :=
  match invNorm (1 - alpha / 2), invNorm power with
  | some zAlpha, some zPower =>
    if 0 < mdeAbs ∧ 0 < sigma2 then
      some (max 2 ⌈2 * (zAlpha + zPower) * (zAlpha + zPower) * sigma2 / (mdeAbs * mdeAbs)⌉)
    else none
  | _, _ => none


/- ===================== Data model ===================== -/

/-- One row of the generated daily series: a date (plus the chart label the
generator attaches) and the nine tracked metric values.  Generated values are
integers (`Math.round`/cohort counts), so metric fields are modelled as `ℤ`. -/
structure DayRec where
  date : String := ""
  label : String := ""
  DAU : ℤ := 0
  WAU : ℤ := 0
  Sessions : ℤ := 0
  Logins : ℤ := 0
  Signups : ℤ := 0
  VideoViews : ℤ := 0
  Shares : ℤ := 0
  Comments : ℤ := 0
  Likes : ℤ := 0

/-- Dynamic field access `d[metricKey]` for the nine metric keys. -/
def DayRec.metric (r : DayRec) (key : String) : ℤ :=
  match key with
  | "DAU" => r.DAU
  | "WAU" => r.WAU
  | "Sessions" => r.Sessions
  | "Logins" => r.Logins
  | "Signups" => r.Signups
  | "VideoViews" => r.VideoViews
  | "Shares" => r.Shares
  | "Comments" => r.Comments
  | "Likes" => r.Likes
  | _ => 0

/-- Keys of the `METRICS` list, in source order. -/
def METRIC_KEYS : List String :=
  ["DAU", "WAU", "Sessions", "Logins", "Signups", "VideoViews", "Shares", "Comments", "Likes"]

/-- `SUCCESS_KEYS`. -/
def SUCCESS_KEYS : List String := ["VideoViews", "Shares", "Comments", "Likes"]

/-- `GUARDRAIL_KEYS`. -/
def GUARDRAIL_KEYS : List String := ["DAU", "WAU", "Sessions", "Logins", "Signups"]

/- ===================== A/B stats & simulation ===================== -/

/-- `const zCritical = 1.96` (95% CI). -/
def zCritical : ℝ := 1.96

/-- `basePerUser(metricKey, data)`: metric total over DAU total, `0` when the
DAU total is not positive. -/
noncomputable def basePerUser (key : String) (data : List DayRec) : ℝ :=
  let metricTotal : ℤ := (data.map (fun d => d.metric key)).sum
  let users : ℤ := (data.map (fun d => d.DAU)).sum
  if 0 < users then (metricTotal : ℝ) / (users : ℝ) else 0

/-- `basePerUserUntil(metricKey, data, endIndex)`: same ratio over the prefix
`data.slice(0, max(0, endIndex))`, falling back to `basePerUser` for an empty
prefix or a non-positive DAU total.  (`endIndex` is a natural number here, so
the `max(0, ·)` of the source is implicit.) -/
noncomputable def basePerUserUntil (key : String) (data : List DayRec) (endIndex : ℕ) : ℝ :=
  let slice := data.take endIndex
  if slice.isEmpty then basePerUser key data
  else
    let metricTotal : ℤ := (slice.map (fun d => d.metric key)).sum
    let users : ℤ := (slice.map (fun d => d.DAU)).sum
    if 0 < users then (metricTotal : ℝ) / (users : ℝ) else basePerUser key data

/-- `deriveDataDrivenLift(metricKey, data, seed)`: mix
`(seed ^ 0x9e3779b9) ^ (sum | 0)` (bitwise on 32-bit words, so the uint32 state
`createPRNG` builds from it is the xor of the three uint32 bit patterns), seed
a fresh PRNG with it, draw one Box–Muller normal `Z`, and clamp
`0.10 + 0.10 Z` to `[-0.5, 2.0]`. -/
noncomputable def deriveDataDrivenLift (key : String) (data : List DayRec) (seed : ℕ) : ℝ :=
  let sum : ℤ := (data.map (fun d => d.metric key)).sum
  let mixedSeed : ℕ := (seed % 4294967296) ^^^ 0x9e3779b9 ^^^ toUInt32 sum
  let lift := 0.10 + 0.10 * (boxMuller (createPRNG mixedSeed)).1
  clamp lift (-0.5) 2.0

/-- The lift variable of `simulateAB`'s per-metric loop:
`deriveDataDrivenLift`, clamped to be non-negative when the no-decline flag is
set and the key is a guardrail key. -/
noncomputable def simLift (key : String) (data : List DayRec) (seed : ℕ)
    (enforceNoDecline : Bool) : ℝ :=
  let lift := deriveDataDrivenLift key data seed
  if enforceNoDecline ∧ key ∈ GUARDRAIL_KEYS then max 0 lift else lift

/-- Per-day cohort size: `Math.max(0, Math.floor(dauDay * clamp(split, 0, 1)))`. -/
noncomputable def cohortN (dauDay : ℤ) (split : ℝ) : ℤ :=
  max 0 ⌊(dauDay : ℝ) * clamp split 0 1⌋

/-- The per-(metric, day) stream seed `(seed ^ hashStr(key) ^ i) >>> 0`
(bitwise xor of the three uint32 bit patterns). -/
def dayStreamSeed (seed : ℕ) (key : String) (i : ℕ) : ℕ :=
  (seed % 4294967296) ^^^ hashStr key ^^^ (i % 4294967296)

/-- The noisy control/experiment samples of one non-DAU metric on one day:
Gaussian draws (two successive `boxMuller` calls on the day's stream) around
`muC_pre · n` (experiment: `muC_pre (1 + lift) n`) with quasi-Poisson standard
deviations, rounded and floored at 0. -/
noncomputable def samplePair (muC_pre lift : ℝ) (nC_day nT_day : ℤ) (s0 : ℕ) : ℤ × ℤ :=
  let varPerUserC := muC_pre * (1 + 0.05)
  let varPerUserE := muC_pre * (1 + lift) * (1 + 0.05)
  let meanC := muC_pre * (nC_day : ℝ)
  let meanE := muC_pre * (1 + lift) * (nT_day : ℝ)
  let sdC := Real.sqrt (max 1e-9 (varPerUserC * (nC_day : ℝ)))
  let sdE := Real.sqrt (max 1e-9 (varPerUserE * (nT_day : ℝ)))
  let bm1 := boxMuller s0
  let bm2 := boxMuller bm1.2
  (max 0 (jsRound (meanC + sdC * bm1.1)), max 0 (jsRound (meanE + sdE * bm2.1)))

/-- Control/experiment values of metric `key` on day `i` (a day inside the
test window): the cohort sizes themselves for `"DAU"`, `samplePair` otherwise. -/
noncomputable def sampleCE (data : List DayRec) (seed : ℕ) (splitC splitT : ℝ)
    (startIndex : ℕ) (enforceNoDecline : Bool) (key : String) (row : DayRec) (i : ℕ) : ℤ × ℤ :=
  let s0 := createPRNG (dayStreamSeed seed key i)
  let nC_day := cohortN row.DAU splitC
  let nT_day := cohortN row.DAU splitT
  if key = "DAU" then (nC_day, nT_day)
  else samplePair (basePerUserUntil key data startIndex)
    (simLift key data seed enforceNoDecline) nC_day nT_day s0

/-- A simulated record: the copied baseline row (`{ ...row }`) plus the
`<key>_Control` / `<key>_Experiment` cells, kept as separate maps since those
key names are disjoint from the baseline field names. -/
structure SimRec where
  base : DayRec
  ctrl : String → Option ℤ
  expt : String → Option ℤ

/-- One entry of `aggregates`. -/
structure Aggregate where
  muC : ℝ
  muT : ℝ
  liftPct : ℝ
  startIndex : ℕ
  daysInTest : ℕ
  NtotC : ℤ
  NtotT : ℤ

/-- The aggregate record `simulateAB` stores for metric `key`: window sums of
the daily samples and assigned cohort sizes, realized means and realized lift. -/
noncomputable def aggregateFor (data : List DayRec) (seed : ℕ) (splitC splitT : ℝ)
    (startIndex : ℕ) (enforceNoDecline : Bool) (key : String) : Aggregate :=
  let len := data.length
  let windowRows := data.enum.filter (fun p => startIndex ≤ p.1)
  let contribs := windowRows.map (fun p =>
    (sampleCE data seed splitC splitT startIndex enforceNoDecline key p.2 p.1,
     cohortN p.2.DAU splitC, cohortN p.2.DAU splitT))
  let sumC : ℤ := (contribs.map (fun c => c.1.1)).sum
  let sumE : ℤ := (contribs.map (fun c => c.1.2)).sum
  let NtotC : ℤ := (contribs.map (fun c => c.2.1)).sum
  let NtotT : ℤ := (contribs.map (fun c => c.2.2)).sum
  let daysInTest := max 1 (len - startIndex)
  let muC_real : ℝ := if 0 < NtotC then (sumC : ℝ) / (NtotC : ℝ) else 0
  let muT_real : ℝ := if 0 < NtotT then (sumE : ℝ) / (NtotT : ℝ) else 0
  let lift_real : ℝ := if 0 < muC_real then muT_real / muC_real - 1 else 0
  { muC := muC_real, muT := muT_real, liftPct := lift_real, startIndex := startIndex,
    daysInTest := daysInTest, NtotC := NtotC, NtotT := NtotT }

/-- Result of `simulateAB`. -/
structure SimOutput where
  simData : List SimRec
  aggregates : String → Option Aggregate
  startIndex : ℕ

/-- Row `i` of `simulateAB`'s `out` array: the shallow copy `{ ...row }` of the
baseline row, whose `<key>_Control` / `<key>_Experiment` cells are `null` for
the days before `startIndex` (the initialization loop) and hold the day's
samples from `startIndex` on (the fill loop). -/
noncomputable def simRow (data : List DayRec) (seed : ℕ) (splitC splitT : ℝ)
    (startIndex : ℕ) (enforceNoDecline : Bool) (i : ℕ) (row : DayRec) : SimRec :=
  { base := row,
    ctrl := fun key =>
      if key ∈ METRIC_KEYS ∧ startIndex ≤ i then
        some (sampleCE data seed splitC splitT startIndex enforceNoDecline key row i).1
      else none,
    expt := fun key =>
      if key ∈ METRIC_KEYS ∧ startIndex ≤ i then
        some (sampleCE data seed splitC splitT startIndex enforceNoDecline key row i).2
      else none }

/-- `simulateAB(data, { seed, splitC, splitT, testLen, enforceNoDecline })`.
`startIndex = max(0, len - testLen)` (natural subtraction); rows are shallow
copies of the baseline rows extended with the per-metric cells (`simRow`). -/
noncomputable def simulateAB (data : List DayRec) (seed : ℕ) (splitC splitT : ℝ)
    (testLen : ℕ) (enforceNoDecline : Bool) : SimOutput :=
  let len := data.length
  let startIndex := len - testLen
  let simData := data.mapIdx (simRow data seed splitC splitT startIndex enforceNoDecline)
  { simData := simData,
    aggregates := fun key =>
      if key ∈ METRIC_KEYS then
        some (aggregateFor data seed splitC splitT startIndex enforceNoDecline key)
      else none,
    startIndex := startIndex }

/- ===================== IEEE special values for computeStats ===================== -/

/-- A JavaScript number as far as `computeStats` needs it: a finite real
(rounding ignored), `Infinity`, `-Infinity`, or `NaN`.  Signed zero is not
distinguished; the arm sizes fed to the divisions are `+0` in the modelled
scenarios, which the `div` rules below assume. -/
inductive JSVal where
  | fin (x : ℝ)
  | inf
  | ninf
  | nan

namespace JSVal

/-- IEEE addition. -/
noncomputable def add : JSVal → JSVal → JSVal
  | nan, _ => nan
  | _, nan => nan
  | fin a, fin b => fin (a + b)
  | fin _, inf => inf
  | inf, fin _ => inf
  | fin _, ninf => ninf
  | ninf, fin _ => ninf
  | inf, inf => inf
  | ninf, ninf => ninf
  | inf, ninf => nan
  | ninf, inf => nan

/-- IEEE negation. -/
noncomputable def neg : JSVal → JSVal
  | fin a => fin (-a)
  | inf => ninf
  | ninf => inf
  | nan => nan

/-- IEEE subtraction. -/
noncomputable def sub (a b : JSVal) : JSVal := add a (neg b)

/-- IEEE multiplication. -/
noncomputable def mul : JSVal → JSVal → JSVal
  | nan, _ => nan
  | _, nan => nan
  | fin a, fin b => fin (a * b)
  | fin a, inf => if 0 < a then inf else if a < 0 then ninf else nan
  | inf, fin a => if 0 < a then inf else if a < 0 then ninf else nan
  | fin a, ninf => if 0 < a then ninf else if a < 0 then inf else nan
  | ninf, fin a => if 0 < a then ninf else if a < 0 then inf else nan
  | inf, inf => inf
  | ninf, ninf => inf
  | inf, ninf => ninf
  | ninf, inf => ninf

/-- IEEE division (divisor `+0` assumed for the zero-divisor case, which is
what a zero arm size is in the source). -/
noncomputable def div : JSVal → JSVal → JSVal
  | nan, _ => nan
  | _, nan => nan
  | fin a, fin b =>
    if b = 0 then (if 0 < a then inf else if a < 0 then ninf else nan)
    else fin (a / b)
  | fin _, inf => fin 0
  | fin _, ninf => fin 0
  | inf, fin b => if 0 ≤ b then inf else ninf
  | ninf, fin b => if 0 ≤ b then ninf else inf
  | inf, inf => nan
  | inf, ninf => nan
  | ninf, inf => nan
  | ninf, ninf => nan

/-- `Math.sqrt`. -/
noncomputable def sqrtJ : JSVal → JSVal
  | fin a => if a < 0 then nan else fin (Real.sqrt a)
  | inf => inf
  | ninf => nan
  | nan => nan

/-- `Math.abs`. -/
noncomputable def absJ : JSVal → JSVal
  | fin a => fin |a|
  | inf => inf
  | ninf => inf
  | nan => nan

end JSVal

/-- `stdNormCDF` extended to the special values, by evaluating the source body
there: a finite argument gives the real-model value; at `x = Infinity` the
density factor is `exp(-∞) = 0` so `prob = 1`; at `x = -Infinity` likewise
`prob = 1` and the reflection branch returns `0`; `NaN` propagates (the final
comparison `x >= 0` is false for `NaN`, giving `1 - NaN = NaN`). -/
noncomputable def stdNormCDFJ : JSVal → JSVal
  | JSVal.fin a => JSVal.fin (stdNormCDF a)
  | JSVal.inf => JSVal.fin 1
  | JSVal.ninf => JSVal.fin 0
  | JSVal.nan => JSVal.nan

/-- `twoTailedP` on JavaScript values. -/
noncomputable def twoTailedPJ (z : JSVal) : JSVal :=
  JSVal.mul (JSVal.fin 2) (JSVal.sub (JSVal.fin 1) (stdNormCDFJ (JSVal.absJ z)))

/-- The record returned by `computeStats`. -/
structure StatsResult where
  muC : ℝ
  muT : ℝ
  diff : ℝ
  se : JSVal
  z : JSVal
  p : JSVal
  ciLow : JSVal
  ciHigh : JSVal
  lift : JSVal

/-- `computeStats({ muC, liftPct, nC, nT, varBoost })`.  The means, variances
and difference are finite products/sums of the inputs; the divisions by the
arm sizes, and everything downstream of them, are IEEE operations (`JSVal`),
since a zero arm size makes them produce `Infinity`/`NaN`.  `se` is the local
variable of the source (not part of the returned object, but recorded here so
that theorems can speak about it). -/
noncomputable def computeStats (muC liftPct nC nT varBoost : ℝ) : StatsResult :=
  let muT := muC * (1 + liftPct)
  let varC := muC * (1 + varBoost)
  let varT := muT * (1 + varBoost)
  let diff := muT - muC
  let se := JSVal.sqrtJ (JSVal.add (JSVal.div (JSVal.fin varT) (JSVal.fin nT))
    (JSVal.div (JSVal.fin varC) (JSVal.fin nC)))
  let z := JSVal.div (JSVal.fin diff) se
  let p := twoTailedPJ z
  let ciLow := JSVal.sub (JSVal.fin diff) (JSVal.mul (JSVal.fin zCritical) se)
  let ciHigh := JSVal.add (JSVal.fin diff) (JSVal.mul (JSVal.fin zCritical) se)
  { muC := muC, muT := muT, diff := diff, se := se, z := z, p := p,
    ciLow := ciLow, ciHigh := ciHigh, lift := JSVal.div (JSVal.fin diff) (JSVal.fin muC) }

/- ===================== Decision rule sizer ===================== -/

/-- The three decision rules of `DecisionRuleSizer`. -/
inductive RuleType where
  | PRIMARY
  | CO_PRIMARY
  | ANY_OF

/-- One row of `DecisionRuleSizer`'s table: the per-metric target n, from the
metric's per-user mean, `sigma2 = mu·1.05`, `mdeAbs = mu·max(0, mdePct)`, and
the (Bonferroni-adjusted, except under `PRIMARY`) significance level
`alphaAdj = alpha / max(1, k)`. -/
noncomputable def ruleRowN (data : List DayRec) (candidateKeys : List String)
    (rule : RuleType) (alpha power mdePct : ℝ) (k : String) : Option ℤ :=
  let mu := basePerUser k data
  let sigma2 := mu * (1 + 0.05)
  let mdeAbs := mu * max 0 mdePct
  let kCount : ℕ := max 1 candidateKeys.length
  let alphaAdj := match rule with
    | RuleType.PRIMARY => alpha
    | _ => alpha / (kCount : ℝ)
  computeSampleSize sigma2 mdeAbs alphaAdj power

/-- `recommendedN`: under `PRIMARY` the primary row's n (falling back to the
first row, `none` when there are no rows); under `CO_PRIMARY` the fold
`reduce((m, r) => max(m, r.n || 0), 0)`; under `ANY_OF` the fold
`reduce((m, r) => m === 0 ? (r.n || 0) : min(m, r.n || 0), 0)`.
`r.n || 0` (NaN coerced to 0) is `Option.getD 0`. -/
noncomputable def recommendedN (data : List DayRec) (candidateKeys : List String)
    (rule : RuleType) (primary : String) (alpha power mdePct : ℝ) : Option ℤ :=
  match rule with
  | RuleType.PRIMARY =>
    match candidateKeys.find? (fun k => k = primary) with
    | some k => ruleRowN data candidateKeys rule alpha power mdePct k
    | none =>
      match candidateKeys.head? with
      | some k0 => ruleRowN data candidateKeys rule alpha power mdePct k0
      | none => none
  | RuleType.CO_PRIMARY =>
    some ((candidateKeys.map
      (fun k => (ruleRowN data candidateKeys rule alpha power mdePct k).getD 0)).foldl max 0)
  | RuleType.ANY_OF =>
    some ((candidateKeys.map
      (fun k => (ruleRowN data candidateKeys rule alpha power mdePct k).getD 0)).foldl
        (fun m v => if m = 0 then v else min m v) 0)

/- ===================== Acklam central-branch polynomials ===================== -/

/- The central-branch numerator and denominator polynomials of Acklam's
approximation (`a`/`b` coefficient rows of `invNorm`), their derivatives, and
the Wronskian-style combination `H = P'·Q - P·Q'` whose sign controls the
monotonicity of the branch.  `0.2263380625 = 0.47575²` is the largest value
`r = q²` attains on the central branch. -/

noncomputable def acklamP (r : ℝ) : ℝ :=
  ((((-39.69683028665376 * r + 220.9460984245205) * r + -275.9285104469687) * r +
    138.3577518672690) * r + -30.66479806614716) * r + 2.506628277459239

noncomputable def acklamQ (r : ℝ) : ℝ :=
  ((((-54.47609879822406 * r + 161.5858368580409) * r + -155.6989798598866) * r +
    66.80131188771972) * r + -13.28068155288572) * r + 1

noncomputable def acklamPd (r : ℝ) : ℝ :=
  (((-198.4841514332688 * r + 883.784393698082) * r + -827.7855313409061) * r +
    276.715503734538) * r + -30.66479806614716

noncomputable def acklamQd (r : ℝ) : ℝ :=
  (((-272.3804939911203 * r + 646.3433474321636) * r + -467.0969395796598) * r +
    133.60262377543944) * r + -13.28068155288572

noncomputable def acklamH (r : ℝ) : ℝ := acklamPd r * acklamQ r - acklamP r * acklamQd r

/-- The rational function `P/Q` of the central branch. -/
noncomputable def acklamG (r : ℝ) : ℝ := acklamP r / acklamQ r


/-- The central-branch value of `invNorm` as a named function. -/
noncomputable def invNormCentral (p : ℝ) : ℝ :=
  acklamP ((p - 0.5) * (p - 0.5)) * (p - 0.5) / acklamQ ((p - 0.5) * (p - 0.5))

/-- Default simulated record, used as the `getD` fallback in statements. -/
def simRecDefault : SimRec := { base := {}, ctrl := fun _ => none, expt := fun _ => none }

/-- Concrete one-day series for the C7 witness. -/
def dataW7 : List DayRec := [{ DAU := 10 }]

/-- Concrete one-day series on which two different metric keys have equal
series sums. -/
def dataC3 : List DayRec := [{ Sessions := 100, Logins := 100 }]

/-- Concrete one-day series for C6: per-user means 100 (VideoViews) and
1 (Shares). -/
def dataC6 : List DayRec := [{ DAU := 100, VideoViews := 10000, Shares := 100 }]

/- ===================== Theorems ===================== -/

/- ----- PRNG state lemmas (C9) ----- -/

theorem xor_lt_uint32 {x y : ℕ} (hx : x < 4294967296) (hy : y < 4294967296) :
    x ^^^ y < 4294967296 := by
  have h : Nat.bitwise bne x y < 2 ^ 32 := Nat.bitwise_lt (by norm_num at hx ⊢; exact hx)
    (by norm_num at hy ⊢; exact hy)
  norm_num at h
  exact h

theorem xor_shl13_eq_zero {x : ℕ} (hx : x < 4294967296)
    (h : x ^^^ ((x <<< 13) % 4294967296) = 0) : x = 0 := by
  have hxe : x = (x * 8192) % 4294967296 := by
    have h1 := Nat.xor_eq_zero.mp h
    simpa [Nat.shiftLeft_eq] using h1
  have hmod : x % 4294967296 = (x * 8192) % 4294967296 := by
    rw [Nat.mod_eq_of_lt hx]; exact hxe
  have hdvd : (4294967296 : ℕ) ∣ x * 8192 - x :=
    (Nat.modEq_iff_dvd' (by omega)).mp hmod
  have hdvd' : (4294967296 : ℕ) ∣ x * 8191 := by
    have : x * 8192 - x = x * 8191 := by omega
    rwa [this] at hdvd
  have hco : Nat.Coprime 4294967296 8191 := by norm_num
  exact Nat.eq_zero_of_dvd_of_lt (hco.dvd_of_dvd_mul_right hdvd') hx

theorem xor_shl5_eq_zero {x : ℕ} (hx : x < 4294967296)
    (h : x ^^^ ((x <<< 5) % 4294967296) = 0) : x = 0 := by
  have hxe : x = (x * 32) % 4294967296 := by
    have h1 := Nat.xor_eq_zero.mp h
    simpa [Nat.shiftLeft_eq] using h1
  have hmod : x % 4294967296 = (x * 32) % 4294967296 := by
    rw [Nat.mod_eq_of_lt hx]; exact hxe
  have hdvd : (4294967296 : ℕ) ∣ x * 32 - x :=
    (Nat.modEq_iff_dvd' (by omega)).mp hmod
  have hdvd' : (4294967296 : ℕ) ∣ x * 31 := by
    have : x * 32 - x = x * 31 := by omega
    rwa [this] at hdvd
  have hco : Nat.Coprime 4294967296 31 := by norm_num
  exact Nat.eq_zero_of_dvd_of_lt (hco.dvd_of_dvd_mul_right hdvd') hx

theorem xor_shr17_eq_zero {x : ℕ} (h : x ^^^ (x >>> 17) = 0) : x = 0 := by
  by_contra hne
  have hx : x = x >>> 17 := Nat.xor_eq_zero.mp h
  rw [Nat.shiftRight_eq_div_pow] at hx
  have hlt : x / 2 ^ 17 < x := Nat.div_lt_self (Nat.pos_of_ne_zero hne) (by norm_num)
  omega

theorem xorshift32_lt {s : ℕ} (hs : s < 4294967296) : xorshift32 s < 4294967296 := by
  unfold xorshift32
  have h1 : s ^^^ ((s <<< 13) % 4294967296) < 4294967296 :=
    xor_lt_uint32 hs (Nat.mod_lt _ (by norm_num))
  have h2 : (s ^^^ ((s <<< 13) % 4294967296)) ^^^ ((s ^^^ ((s <<< 13) % 4294967296)) >>> 17)
      < 4294967296 := by
    refine xor_lt_uint32 h1 ?_
    calc (s ^^^ ((s <<< 13) % 4294967296)) >>> 17
        ≤ s ^^^ ((s <<< 13) % 4294967296) := by
          rw [Nat.shiftRight_eq_div_pow]; exact Nat.div_le_self _ _
      _ < 4294967296 := h1
  exact xor_lt_uint32 h2 (Nat.mod_lt _ (by norm_num))

theorem xorshift32_ne_zero {s : ℕ} (hs : s < 4294967296) (hne : s ≠ 0) :
    xorshift32 s ≠ 0 := by
  unfold xorshift32
  intro h
  have h1 : s ^^^ ((s <<< 13) % 4294967296) < 4294967296 :=
    xor_lt_uint32 hs (Nat.mod_lt _ (by norm_num))
  have h2 : (s ^^^ ((s <<< 13) % 4294967296)) ^^^ ((s ^^^ ((s <<< 13) % 4294967296)) >>> 17)
      < 4294967296 := by
    refine xor_lt_uint32 h1 ?_
    calc (s ^^^ ((s <<< 13) % 4294967296)) >>> 17
        ≤ s ^^^ ((s <<< 13) % 4294967296) := by
          rw [Nat.shiftRight_eq_div_pow]; exact Nat.div_le_self _ _
      _ < 4294967296 := h1
  have e2 := xor_shl5_eq_zero h2 h
  have e1 := xor_shr17_eq_zero e2
  exact hne (xor_shl13_eq_zero hs e1)

theorem prngState_lt (seed : ℕ) (n : ℕ) : prngState seed n < 4294967296 := by
  induction n with
  | zero => exact Nat.mod_lt _ (by norm_num)
  | succ n ih => exact xorshift32_lt ih

/-- C9 (amended): a nonzero seed never reaches the all-zero state — the
xorshift32 update maps nonzero 32-bit states to nonzero states, so every state
in the stream of `createPRNG(seed)` is nonzero whenever `seed >>> 0 ≠ 0`.
Seed 0 itself is *not* perturbed (see the counterexample). -/
theorem createPRNG_nonzero_state (seed : ℕ) (n : ℕ) (h : seed % 4294967296 ≠ 0) :
    prngState seed n ≠ 0 := by
  induction n with
  | zero => exact h
  | succ n ih => exact xorshift32_ne_zero (prngState_lt seed n) ih

theorem createPRNG_nonzero_state_witness : prngState 42 3 ≠ 0 :=
  createPRNG_nonzero_state 42 3 (by decide)

/-- C9 (counterexample): `createPRNG(0)` starts in the all-zero state and stays
there — seed 0 is not mapped to a nonzero internal constant, and the generator
emits the degenerate constant stream `0, 0, ...`. -/
theorem createPRNG_seed_zero_degenerate :
    prngState 0 0 = 0 ∧ prngState 0 1 = 0 ∧ prngState 0 2 = 0 ∧
    prngOut 0 0 = 0 ∧ prngOut 0 1 = 0 := by
  refine ⟨by decide, by decide, by decide, ?_, ?_⟩ <;>
    simp [prngOut, prngState, createPRNG, xorshift32]

/-- C2: with the no-decline flag set, the lift `simulateAB` uses for every
guardrail metric (`DAU`, `WAU`, `Sessions`, `Logins`, `Signups`) is clamped by
`lift = max(0, lift)` and is therefore non-negative, for every baseline series,
seed and metric in the guardrail class (the per-day cohort draws use exactly
this `simLift` value via `sampleCE`). -/
theorem simulateAB_guardrail_lift_nonneg (key : String) (data : List DayRec) (seed : ℕ)
    (hkey : key ∈ GUARDRAIL_KEYS) : 0 ≤ simLift key data seed true := by
  unfold simLift
  rw [if_pos ⟨rfl, hkey⟩]
  exact le_max_left 0 _

theorem simulateAB_guardrail_lift_nonneg_witness : 0 ≤ simLift "WAU" [] 7 true :=
  simulateAB_guardrail_lift_nonneg "WAU" [] 7 (by decide)

/- ----- simData access lemmas (C10, C7) ----- -/


theorem get?_mapIdx {α β : Type} (l : List α) (f : ℕ → α → β) (i : ℕ) :
    (l.mapIdx f).get? i = (l.get? i).map (f i) := by
  rcases Nat.lt_or_ge i l.length with h | h
  · have h' : i < (l.mapIdx f).length := by simpa [List.length_mapIdx] using h
    rw [List.get?_eq_get h, List.get?_eq_get h', Option.map_some']
    exact congrArg some (List.get_mapIdx l f i h h')
  · rw [List.get?_eq_none.mpr h, List.get?_eq_none.mpr (by simpa [List.length_mapIdx] using h)]
    rfl

theorem simData_getD (data : List DayRec) (seed : ℕ) (splitC splitT : ℝ) (testLen : ℕ)
    (flag : Bool) (i : ℕ) :
    (simulateAB data seed splitC splitT testLen flag).simData.getD i simRecDefault
      = ((data.get? i).map
          (simRow data seed splitC splitT (data.length - testLen) flag i)).getD simRecDefault := by
  simp only [simulateAB, List.getD_eq_getElem?_getD, ← List.get?_eq_getElem?, get?_mapIdx]


/-- C10: `simulateAB` only adds cells to fresh copies of the rows — in the
returned `simData`, the baseline part of record `i` (date, label, and all nine
metric values) is the input record `i` itself, for every index (out of range,
both sides are the default record).  Together with the purity of the embedding
(the source writes only to the copies made by `{ ...row }`), the input series
is unchanged by a call. -/
theorem simulateAB_preserves_baseline (data : List DayRec) (seed : ℕ) (splitC splitT : ℝ)
    (testLen : ℕ) (flag : Bool) (i : ℕ) :
    ((simulateAB data seed splitC splitT testLen flag).simData.getD i simRecDefault).base
      = data.getD i {} := by
  rw [simData_getD, List.getD_eq_getElem?_getD, ← List.get?_eq_getElem?]
  cases h : data.get? i with
  | none => rfl
  | some row => rfl

theorem simulateAB_startIndex (data : List DayRec) (seed : ℕ) (splitC splitT : ℝ)
    (testLen : ℕ) (flag : Bool) :
    (simulateAB data seed splitC splitT testLen flag).startIndex = data.length - testLen := rfl

/-- C7: in every run of `simulateAB`, (a) for each day inside the test window
the DAU metric's control and experiment cells are exactly
`floor(dayDAU · clamp(split, 0, 1))` — the assignment populations, with no
added noise (the `Math.max(0, ·)` of the source is the identity here because
the data model keeps daily counts non-negative); (b) every metric's cells are
null for the days before `startIndex`; and (c) the simulation is a pure
function of `(data, seed, splitC, splitT, testLen, flag)`, so re-running with
identical inputs reproduces identical per-day integers for every metric. -/
theorem simulateAB_dau_cells_and_nulls (data : List DayRec) (seed : ℕ) (splitC splitT : ℝ)
    (testLen : ℕ) (flag : Bool) :
    (∀ i, (simulateAB data seed splitC splitT testLen flag).startIndex ≤ i →
      i < data.length → 0 ≤ (data.getD i {}).DAU →
      ((simulateAB data seed splitC splitT testLen flag).simData.getD i simRecDefault).ctrl "DAU"
          = some ⌊((data.getD i {}).DAU : ℝ) * clamp splitC 0 1⌋ ∧
      ((simulateAB data seed splitC splitT testLen flag).simData.getD i simRecDefault).expt "DAU"
          = some ⌊((data.getD i {}).DAU : ℝ) * clamp splitT 0 1⌋) ∧
    (∀ i key, i < (simulateAB data seed splitC splitT testLen flag).startIndex →
      ((simulateAB data seed splitC splitT testLen flag).simData.getD i simRecDefault).ctrl key
          = none ∧
      ((simulateAB data seed splitC splitT testLen flag).simData.getD i simRecDefault).expt key
          = none) ∧
    simulateAB data seed splitC splitT testLen flag
      = simulateAB data seed splitC splitT testLen flag := by
  refine ⟨?_, ?_, rfl⟩
  · intro i h1 h2 h3
    rw [simulateAB_startIndex] at h1
    have hrow : data.get ⟨i, h2⟩ = data.getD i {} := by
      rw [List.get_eq_getElem, List.getD_eq_getElem data {} h2]
    have hcl : ∀ s : ℝ, (0 : ℝ) ≤ clamp s 0 1 := fun s => le_max_left 0 _
    have hfloor : ∀ s : ℝ, cohortN (data.getD i {}).DAU s
        = ⌊((data.getD i {}).DAU : ℝ) * clamp s 0 1⌋ := by
      intro s
      exact max_eq_right (Int.floor_nonneg.mpr
        (mul_nonneg (by exact_mod_cast h3) (hcl s)))
    constructor
    · rw [simData_getD, List.get?_eq_get h2, Option.map_some', Option.getD_some, hrow]
      show (if ("DAU" : String) ∈ METRIC_KEYS ∧ data.length - testLen ≤ i then
        some (sampleCE data seed splitC splitT (data.length - testLen) flag "DAU"
          (data.getD i {}) i).1 else none) = _
      rw [if_pos ⟨by decide, h1⟩]
      simp only [sampleCE, if_pos rfl]
      exact congrArg some (hfloor splitC)
    · rw [simData_getD, List.get?_eq_get h2, Option.map_some', Option.getD_some, hrow]
      show (if ("DAU" : String) ∈ METRIC_KEYS ∧ data.length - testLen ≤ i then
        some (sampleCE data seed splitC splitT (data.length - testLen) flag "DAU"
          (data.getD i {}) i).2 else none) = _
      rw [if_pos ⟨by decide, h1⟩]
      simp only [sampleCE, if_pos rfl]
      exact congrArg some (hfloor splitT)
  · intro i key hlt
    rw [simulateAB_startIndex] at hlt
    rw [simData_getD]
    cases h : data.get? i with
    | none => exact ⟨rfl, rfl⟩
    | some row =>
      constructor
      · show (if key ∈ METRIC_KEYS ∧ data.length - testLen ≤ i then _ else none) = none
        rw [if_neg]
        rintro ⟨-, hge⟩
        omega
      · show (if key ∈ METRIC_KEYS ∧ data.length - testLen ≤ i then _ else none) = none
        rw [if_neg]
        rintro ⟨-, hge⟩
        omega


theorem simulateAB_dau_cells_and_nulls_witness :
    ((simulateAB dataW7 7 (1 / 2) (1 / 2) 1 true).simData.getD 0 simRecDefault).ctrl "DAU"
        = some ⌊((dataW7.getD 0 {}).DAU : ℝ) * clamp (1 / 2) 0 1⌋ ∧
    ((simulateAB dataW7 7 (1 / 2) (1 / 2) 1 true).simData.getD 0 simRecDefault).expt "DAU"
        = some ⌊((dataW7.getD 0 {}).DAU : ℝ) * clamp (1 / 2) 0 1⌋ :=
  (simulateAB_dau_cells_and_nulls dataW7 7 (1 / 2) (1 / 2) 1 true).1 0
    (by rw [simulateAB_startIndex]; norm_num [dataW7])
    (by norm_num [dataW7])
    (by norm_num [dataW7])

/- ----- C3: derived lift and its seeding mix ----- -/


/-- C3 (counterexample): the seeding mix of `deriveDataDrivenLift` does *not*
include the metric key hash — `"Sessions"` and `"Logins"` have different
`hashStr` values, yet on a series where their sums coincide they receive
exactly the same lift, for the documented seed 42. -/
theorem deriveDataDrivenLift_ignores_key_hash :
    deriveDataDrivenLift "Sessions" dataC3 42 = deriveDataDrivenLift "Logins" dataC3 42 ∧
    hashStr "Sessions" ≠ hashStr "Logins" := by
  refine ⟨?_, by decide⟩
  simp only [deriveDataDrivenLift, dataC3, List.map_cons, List.map_nil, DayRec.metric]

/-- C3 (amended): the per-metric lift is `0.10 + 0.10·Z` clamped to
`[-0.5, 2.0]`, where `Z` is drawn from a PRNG seeded by the mix
`(seed ^ 0x9e3779b9) ^ (sum | 0)` of the seed and the metric's full-series
sum only: the metric key hash is not part of the mix (the key only selects
which column is summed), so any two keys with equal series sums receive
identical lifts; and every derived lift lies in `[-0.5, 2]`. -/
theorem deriveDataDrivenLift_mix :
    (∀ (k1 k2 : String) (data : List DayRec) (seed : ℕ),
      (data.map (fun d => d.metric k1)).sum = (data.map (fun d => d.metric k2)).sum →
      deriveDataDrivenLift k1 data seed = deriveDataDrivenLift k2 data seed) ∧
    (∀ (key : String) (data : List DayRec) (seed : ℕ),
      -0.5 ≤ deriveDataDrivenLift key data seed ∧ deriveDataDrivenLift key data seed ≤ 2) := by
  constructor
  · intro k1 k2 data seed h
    simp only [deriveDataDrivenLift, h]
  · intro key data seed
    unfold deriveDataDrivenLift clamp
    exact ⟨le_max_left _ _,
      max_le (by norm_num) (le_trans (min_le_left _ _) (by norm_num))⟩

theorem deriveDataDrivenLift_mix_witness :
    deriveDataDrivenLift "VideoViews" [] 5 = deriveDataDrivenLift "Shares" [] 5 :=
  deriveDataDrivenLift_mix.1 "VideoViews" "Shares" [] 5 (by simp)

/- ----- C1: computeStats and zero arm sizes ----- -/

theorem stdNormCDF_zero_lt_half : stdNormCDF 0 < 1 / 2 := by
  have h0 : (-((0 : ℝ) * 0) / 2 : ℝ) = 0 := by norm_num
  simp only [stdNormCDF, abs_zero, h0, Real.exp_zero]
  rw [if_pos le_rfl]
  norm_num

/-- What `computeStats` actually does with a zero control arm (shared by the
C1 theorem and counterexample): the unguarded IEEE division produces
`varC / 0 = Infinity`, hence `se = Infinity`, `z = diff / Infinity = 0`,
`p = twoTailedP(0) = 2 (1 - stdNormCDF 0)` and CI bounds `(-Infinity, Infinity)`. -/
theorem computeStats_nC_zero_eval (muC liftPct nT varBoost : ℝ)
    (hmu : 0 < muC) (hnT : 0 < nT) (hvb : 0 ≤ varBoost) :
    (computeStats muC liftPct 0 nT varBoost).se = JSVal.inf ∧
    (computeStats muC liftPct 0 nT varBoost).z = JSVal.fin 0 ∧
    (computeStats muC liftPct 0 nT varBoost).p = JSVal.fin (2 * (1 - stdNormCDF 0)) ∧
    (computeStats muC liftPct 0 nT varBoost).ciLow = JSVal.ninf ∧
    (computeStats muC liftPct 0 nT varBoost).ciHigh = JSVal.inf := by
  have hvarC : 0 < muC * (1 + varBoost) := mul_pos hmu (by linarith)
  have hseR : JSVal.sqrtJ (JSVal.add
      (JSVal.div (JSVal.fin (muC * (1 + liftPct) * (1 + varBoost))) (JSVal.fin nT))
      (JSVal.div (JSVal.fin (muC * (1 + varBoost))) (JSVal.fin 0))) = JSVal.inf := by
    simp only [JSVal.div]
    rw [if_pos trivial, if_pos hvarC, if_neg hnT.ne']
    simp only [JSVal.add, JSVal.sqrtJ]
  have hzc : (0 : ℝ) < zCritical := by norm_num [zCritical]
  refine ⟨?_, ?_, ?_, ?_, ?_⟩
  · simp only [computeStats]
    exact hseR
  · simp only [computeStats, hseR]
    simp only [JSVal.div]
  · simp only [computeStats, hseR]
    simp only [JSVal.div, twoTailedPJ, JSVal.absJ, abs_zero, stdNormCDFJ, JSVal.sub,
      JSVal.neg, JSVal.add, JSVal.mul]
    norm_num
    ring
  · simp only [computeStats, hseR]
    simp only [JSVal.mul]
    rw [if_pos hzc]
    simp only [JSVal.sub, JSVal.neg, JSVal.add]
  · simp only [computeStats, hseR]
    simp only [JSVal.mul]
    rw [if_pos hzc]
    simp only [JSVal.add]

/-- The symmetric evaluation for a zero experiment arm: `varT / 0 = Infinity`
(the experiment variance is positive for a non-negative lift), and the same
downstream values follow. -/
theorem computeStats_nT_zero_eval (muC liftPct nC varBoost : ℝ)
    (hmu : 0 < muC) (hlift : 0 ≤ liftPct) (hnC : 0 < nC) (hvb : 0 ≤ varBoost) :
    (computeStats muC liftPct nC 0 varBoost).se = JSVal.inf ∧
    (computeStats muC liftPct nC 0 varBoost).z = JSVal.fin 0 ∧
    (computeStats muC liftPct nC 0 varBoost).p = JSVal.fin (2 * (1 - stdNormCDF 0)) ∧
    (computeStats muC liftPct nC 0 varBoost).ciLow = JSVal.ninf ∧
    (computeStats muC liftPct nC 0 varBoost).ciHigh = JSVal.inf := by
  have hvarT : 0 < muC * (1 + liftPct) * (1 + varBoost) :=
    mul_pos (mul_pos hmu (by linarith)) (by linarith)
  have hseR : JSVal.sqrtJ (JSVal.add
      (JSVal.div (JSVal.fin (muC * (1 + liftPct) * (1 + varBoost))) (JSVal.fin 0))
      (JSVal.div (JSVal.fin (muC * (1 + varBoost))) (JSVal.fin nC))) = JSVal.inf := by
    simp only [JSVal.div]
    rw [if_pos trivial, if_pos hvarT, if_neg hnC.ne']
    simp only [JSVal.add, JSVal.sqrtJ]
  have hzc : (0 : ℝ) < zCritical := by norm_num [zCritical]
  refine ⟨?_, ?_, ?_, ?_, ?_⟩
  · simp only [computeStats]
    exact hseR
  · simp only [computeStats, hseR]
    simp only [JSVal.div]
  · simp only [computeStats, hseR]
    simp only [JSVal.div, twoTailedPJ, JSVal.absJ, abs_zero, stdNormCDFJ, JSVal.sub,
      JSVal.neg, JSVal.add, JSVal.mul]
    norm_num
    ring
  · simp only [computeStats, hseR]
    simp only [JSVal.mul]
    rw [if_pos hzc]
    simp only [JSVal.sub, JSVal.neg, JSVal.add]
  · simp only [computeStats, hseR]
    simp only [JSVal.mul]
    rw [if_pos hzc]
    simp only [JSVal.add]

/-- C1 (amended): `computeStats` does *not* guard the divisions by the arm
sizes.  With `nC = 0` or `nT = 0` (the other arm positive, a positive control
mean, a non-negative lift and variance boost), the IEEE division by the zero
arm size yields an infinite variance term, so `se = Infinity`; no fault is
raised, but the function then returns the ordinary finite numbers `z = 0` and
`p = 2 (1 - stdNormCDF 0)` — a p-value slightly *greater than one*, not an
error/undefined marker — together with the infinite CI `(-∞, ∞)`. -/
theorem computeStats_unguarded_zero_arm (muC liftPct nC nT varBoost : ℝ)
    (hmu : 0 < muC) (hlift : 0 ≤ liftPct) (hvb : 0 ≤ varBoost)
    (h : (nC = 0 ∧ 0 < nT) ∨ (nT = 0 ∧ 0 < nC)) :
    (computeStats muC liftPct nC nT varBoost).se = JSVal.inf ∧
    (computeStats muC liftPct nC nT varBoost).z = JSVal.fin 0 ∧
    (computeStats muC liftPct nC nT varBoost).p = JSVal.fin (2 * (1 - stdNormCDF 0)) ∧
    1 < 2 * (1 - stdNormCDF 0) ∧
    (computeStats muC liftPct nC nT varBoost).ciLow = JSVal.ninf ∧
    (computeStats muC liftPct nC nT varBoost).ciHigh = JSVal.inf := by
  have hp : 1 < 2 * (1 - stdNormCDF 0) := by
    have := stdNormCDF_zero_lt_half
    linarith
  rcases h with ⟨hC, hT⟩ | ⟨hT, hC⟩
  · subst hC
    obtain ⟨h1, h2, h3, h4, h5⟩ := computeStats_nC_zero_eval muC liftPct nT varBoost hmu hT hvb
    exact ⟨h1, h2, h3, hp, h4, h5⟩
  · subst hT
    obtain ⟨h1, h2, h3, h4, h5⟩ :=
      computeStats_nT_zero_eval muC liftPct nC varBoost hmu hlift hC hvb
    exact ⟨h1, h2, h3, hp, h4, h5⟩

theorem computeStats_unguarded_zero_arm_witness :
    (computeStats 50 0 0 5 (1 / 20)).se = JSVal.inf ∧
    (computeStats 50 0 0 5 (1 / 20)).z = JSVal.fin 0 ∧
    (computeStats 50 0 0 5 (1 / 20)).p = JSVal.fin (2 * (1 - stdNormCDF 0)) ∧
    1 < 2 * (1 - stdNormCDF 0) ∧
    (computeStats 50 0 0 5 (1 / 20)).ciLow = JSVal.ninf ∧
    (computeStats 50 0 0 5 (1 / 20)).ciHigh = JSVal.inf :=
  computeStats_unguarded_zero_arm 50 0 0 5 (1 / 20) (by norm_num) le_rfl (by norm_num)
    (Or.inl ⟨rfl, by norm_num⟩)

/-- C1 (counterexample): at `muC = 100`, `liftPct = 0.1`, `nC = 0`, `nT = 10`,
`varBoost = 0.05`, `computeStats` performs the division by the zero arm size
(IEEE: `varC / 0 = Infinity`) instead of guarding it, and returns the ordinary
finite values `z = 0` and `p = 2 (1 - stdNormCDF 0) > 1` — not an
error/undefined result — refuting the claim that the division is guarded. -/
theorem computeStats_zero_arm_counterexample :
    (computeStats 100 (1 / 10) 0 10 (1 / 20)).z = JSVal.fin 0 ∧
    (computeStats 100 (1 / 10) 0 10 (1 / 20)).p = JSVal.fin (2 * (1 - stdNormCDF 0)) ∧
    1 < 2 * (1 - stdNormCDF 0) ∧
    (computeStats 100 (1 / 10) 0 10 (1 / 20)).ciHigh = JSVal.inf := by
  obtain ⟨-, h2, h3, -, h5⟩ :=
    computeStats_nC_zero_eval 100 (1 / 10) 10 (1 / 20) (by norm_num) (by norm_num) (by norm_num)
  have := stdNormCDF_zero_lt_half
  exact ⟨h2, h3, by linarith, h5⟩

/- ----- Exact central-branch values of invNorm at the rational points used
below.  For `0.02425 ≤ p ≤ 0.97575` the approximation is a rational function
with decimal coefficients, so these values are exact rationals. ----- -/

theorem invNorm_val_0975 : invNorm 0.975
    = some (1565713706127574936278201074 / 798848201913635967184059665 : ℝ) := by
  rw [invNorm, if_neg (by norm_num), if_neg (by norm_num), if_neg (by norm_num)]
  norm_num

theorem invNorm_val_08 : invNorm 0.8
    = some (510453168914629834438182 / 606511752633550076992765 : ℝ) := by
  rw [invNorm, if_neg (by norm_num), if_neg (by norm_num), if_neg (by norm_num)]
  norm_num

theorem invNorm_val_055 : invNorm 0.55
    = some (34571757731369189311846592 / 275118471915278352573392665 : ℝ) := by
  rw [invNorm, if_neg (by norm_num), if_neg (by norm_num), if_neg (by norm_num)]
  norm_num

theorem invNorm_val_003 : invNorm 0.03
    = some (-(98695988066827461001751166241376 / 52475714374021932893744314752925) : ℝ) := by
  rw [invNorm, if_neg (by norm_num), if_neg (by norm_num), if_neg (by norm_num)]
  norm_num

theorem invNorm_val_01 : invNorm 0.1
    = some (-(33127729296663180203 / 25849704548478267920) : ℝ) := by
  rw [invNorm, if_neg (by norm_num), if_neg (by norm_num), if_neg (by norm_num)]
  norm_num

theorem invNorm_val_09 : invNorm 0.9
    = some (33127729296663180203 / 25849704548478267920 : ℝ) := by
  rw [invNorm, if_neg (by norm_num), if_neg (by norm_num), if_neg (by norm_num)]
  norm_num

theorem invNorm_val_095 : invNorm 0.95
    = some (42969791404899046865722752 / 26123778279302993257167985 : ℝ) := by
  rw [invNorm, if_neg (by norm_num), if_neg (by norm_num), if_neg (by norm_num)]
  norm_num

/-- Reduction of `computeSampleSize` once both quantiles are known. -/
theorem computeSampleSize_eq_of (sigma2 mdeAbs alpha power : ℝ) (zA zP : ℝ)
    (hA : invNorm (1 - alpha / 2) = some zA) (hP : invNorm power = some zP) :
    computeSampleSize sigma2 mdeAbs alpha power
      = if 0 < mdeAbs ∧ 0 < sigma2 then
          some (max 2 ⌈2 * (zA + zP) * (zA + zP) * sigma2 / (mdeAbs * mdeAbs)⌉)
        else none := by
  unfold computeSampleSize
  rw [hA, hP]

/-- The value `computeSampleSize` actually returns on the spec's worked
example `σ² = 105, MDE = 10, α = 0.05, power = 0.8` (shared by the C4 theorem
and counterexample). -/
theorem computeSampleSize_worked_eval : computeSampleSize 105 10 0.05 0.8 = some 17 := by
  have hA : invNorm (1 - (0.05 : ℝ) / 2)
      = some (1565713706127574936278201074 / 798848201913635967184059665 : ℝ) := by
    rw [show (1 : ℝ) - 0.05 / 2 = 0.975 by norm_num]
    exact invNorm_val_0975
  rw [computeSampleSize_eq_of 105 10 0.05 0.8 _ _ hA invNorm_val_08,
    if_pos (by norm_num)]
  have hc : (⌈(2 * ((1565713706127574936278201074 / 798848201913635967184059665 : ℝ)
        + 510453168914629834438182 / 606511752633550076992765)
      * (1565713706127574936278201074 / 798848201913635967184059665
        + 510453168914629834438182 / 606511752633550076992765) * 105 / (10 * 10))⌉) = 17 := by
    rw [Int.ceil_eq_iff]
    constructor <;> norm_num
  rw [hc]
  norm_num

/-- C4 (counterexample): on the spec's worked example
`σ² = 105, mdeAbs = 10, α = 0.05, power = 0.8` the function returns `17` per
arm, not approximately `34`: the claimed value is not within any rounding of
the quantile approximations (it is off by a factor of two). -/
theorem computeSampleSize_not_34 :
    computeSampleSize 105 10 0.05 0.8 = some 17 ∧ (17 : ℤ) < 34 :=
  ⟨computeSampleSize_worked_eval, by norm_num⟩

/-- C4 (amended): with `σ² = 105, mdeAbs = 10, α = 0.05, power = 0.8` the
recommended per-arm size is `17 = ceil(2·(zα + zPower)²·105/100)`; the claim's
own formula `ceil(2·(1.95996 + 0.84162)²·105/100)` also evaluates to `17`
(the expression inside is ≈ 16.48) — the spec's `≈ 34` is the *two-arm total*
`2n`, not the per-arm size. -/
theorem computeSampleSize_worked_example :
    computeSampleSize 105 10 0.05 0.8 = some 17 ∧
    (⌈(2 * (1.95996 + 0.84162) ^ 2 * 105 / 100 : ℝ)⌉ : ℤ) = 17 := by
  refine ⟨computeSampleSize_worked_eval, ?_⟩
  rw [Int.ceil_eq_iff]
  constructor <;> norm_num

/- ----- C8: normal-distribution regression checks ----- -/

/-- The exact (real-model) value of `stdNormCDF 0`:
`1 - 0.3989423 · (1.330274429 - 1.821255978 + 1.781477937 - 0.356563782 + 0.319381530)`,
which is `0.49999997596...`, not exactly `1/2`. -/
theorem stdNormCDF_zero_val : stdNormCDF 0 = 624999969952059 / 1250000000000000 := by
  have h0 : (-((0 : ℝ) * 0) / 2 : ℝ) = 0 := by norm_num
  simp only [stdNormCDF, abs_zero, h0, Real.exp_zero]
  rw [if_pos le_rfl]
  norm_num

/-- C8 (counterexample): at `x = 0` the reflection identity fails —
`stdNormCDF 0 + stdNormCDF (-0) = 2·stdNormCDF 0 ≈ 0.99999995 ≠ 1`, because
both summands take the `x ≥ 0` branch; equivalently `stdNormCDF 0` is *not*
exactly `0.5` (the A&S polynomial at `t = 1` gives `0.49999997596...`). -/
theorem stdNormCDF_zero_reflection_fails :
    stdNormCDF 0 + stdNormCDF (-0 : ℝ) ≠ 1 ∧ stdNormCDF 0 ≠ 1 / 2 := by
  rw [neg_zero, stdNormCDF_zero_val]
  constructor <;> norm_num

/-- C8 (amended): `stdNormCDF 0 = 0.5` holds only approximately — to within
`5·10⁻⁸` (exactly `0.4999999759616472`), not exactly;
`stdNormCDF (-x) + stdNormCDF x = 1` holds exactly for every `x ≠ 0` (at
`x = 0` the sum is `2·stdNormCDF 0 ≠ 1`, see the counterexample); and
`invNorm 0.975` is defined and within `0.02` of `1.95996` (its exact value is
`1.95996398612...`, within `4·10⁻⁶`). -/
theorem normal_dist_regressions :
    |stdNormCDF 0 - 1 / 2| < 5 / 100000000 ∧
    (∀ x : ℝ, x ≠ 0 → stdNormCDF (-x) + stdNormCDF x = 1) ∧
    (invNorm 0.975).elim False (fun z => |z - 1.95996| < 1 / 50) := by
  refine ⟨?_, ?_, ?_⟩
  · rw [stdNormCDF_zero_val, abs_sub_lt_iff]
    constructor <;> norm_num
  · intro x hx
    rcases hx.lt_or_lt with h | h
    · simp only [stdNormCDF, abs_neg, neg_mul_neg]
      rw [if_neg (not_le.mpr h), if_pos (le_of_lt (neg_pos.mpr h))]
      ring
    · simp only [stdNormCDF, abs_neg, neg_mul_neg]
      rw [if_pos h.le, if_neg (not_le.mpr (neg_lt_zero.mpr h))]
      ring
  · rw [invNorm_val_0975]
    simp only [Option.elim]
    rw [abs_sub_lt_iff]
    constructor <;> norm_num

theorem normal_dist_regressions_witness :
    stdNormCDF (-1) + stdNormCDF 1 = 1 :=
  normal_dist_regressions.2.1 1 one_ne_zero

/- ----- C6: decision-rule ordering ----- -/

/-- The ANY_OF fold is bounded by the CO_PRIMARY fold over the same row values
(invariant: the ANY_OF accumulator never exceeds the max accumulator). -/
theorem anyOf_fold_le_max_fold (vs : List ℤ) :
    ∀ a b : ℤ, a ≤ b →
      vs.foldl (fun m v => if m = 0 then v else min m v) a ≤ vs.foldl max b := by
  induction vs with
  | nil => intro a b h; exact h
  | cons v t ih =>
    intro a b h
    simp only [List.foldl_cons]
    refine ih _ _ ?_
    by_cases ha : a = 0
    · rw [ha, if_pos rfl]
      exact le_max_right b v
    · rw [if_neg ha]
      exact le_trans (min_le_right a v) (le_max_right b v)

theorem ruleRowN_co_eq_any (data : List DayRec) (candidateKeys : List String)
    (alpha power mdePct : ℝ) (k : String) :
    ruleRowN data candidateKeys RuleType.CO_PRIMARY alpha power mdePct k
      = ruleRowN data candidateKeys RuleType.ANY_OF alpha power mdePct k := rfl

/-- C6 (amended): for the same series, candidate set, MDE fraction, power and
α, the CO_PRIMARY recommended n (max-fold over the per-metric Bonferroni ns)
is always ≥ the ANY_OF recommended n (min-style fold over the same ns).  The
claim's further assertion — that the ANY_OF n dominates *every* metric's own
PRIMARY n at the uncorrected α — is false (see the counterexample): the
ANY_OF minimum can lie far below another candidate's uncorrected PRIMARY n. -/
theorem coPrimary_ge_anyOf (data : List DayRec) (candidateKeys : List String)
    (primary : String) (alpha power mdePct : ℝ) (nCo nAny : ℤ)
    (hco : recommendedN data candidateKeys RuleType.CO_PRIMARY primary alpha power mdePct
      = some nCo)
    (hany : recommendedN data candidateKeys RuleType.ANY_OF primary alpha power mdePct
      = some nAny) :
    nAny ≤ nCo := by
  simp only [recommendedN] at hco hany
  have hco' := Option.some.inj hco
  have hany' := Option.some.inj hany
  rw [← hco', ← hany']
  have hmap : candidateKeys.map
        (fun k => (ruleRowN data candidateKeys RuleType.ANY_OF alpha power mdePct k).getD 0)
      = candidateKeys.map
        (fun k => (ruleRowN data candidateKeys RuleType.CO_PRIMARY alpha power mdePct k).getD 0) := by
    simp only [ruleRowN_co_eq_any]
  rw [hmap]
  exact anyOf_fold_le_max_fold _ 0 0 le_rfl


theorem basePerUser_C6_VV : basePerUser "VideoViews" dataC6 = 100 := by
  simp only [basePerUser, dataC6, DayRec.metric, List.map_cons, List.map_nil, List.sum_cons,
    List.sum_nil]
  norm_num

theorem basePerUser_C6_Sh : basePerUser "Shares" dataC6 = 1 := by
  simp only [basePerUser, dataC6, DayRec.metric, List.map_cons, List.map_nil, List.sum_cons,
    List.sum_nil]
  norm_num

theorem ruleRowN_any_def (data : List DayRec) (keys : List String) (alpha power mdePct : ℝ)
    (k : String) :
    ruleRowN data keys RuleType.ANY_OF alpha power mdePct k
      = computeSampleSize (basePerUser k data * (1 + 0.05)) (basePerUser k data * max 0 mdePct)
          (alpha / ((max 1 keys.length : ℕ) : ℝ)) power := rfl

theorem ruleRowN_primary_def (data : List DayRec) (keys : List String) (alpha power mdePct : ℝ)
    (k : String) :
    ruleRowN data keys RuleType.PRIMARY alpha power mdePct k
      = computeSampleSize (basePerUser k data * (1 + 0.05)) (basePerUser k data * max 0 mdePct)
          alpha power := rfl

theorem ruleRowN_C6_any_VV :
    ruleRowN dataC6 ["VideoViews", "Shares"] RuleType.ANY_OF 0.2 0.8 0.1 "VideoViews"
      = some 13 := by
  rw [ruleRowN_any_def, basePerUser_C6_VV]
  have h1 : (100 : ℝ) * (1 + 0.05) = 105 := by norm_num
  have h2 : (100 : ℝ) * max 0 0.1 = 10 := by
    rw [max_eq_right (by norm_num : (0 : ℝ) ≤ 0.1)]; norm_num
  have h3 : ((0.2 : ℝ) / ((max 1 (["VideoViews", "Shares"] : List String).length : ℕ) : ℝ))
      = 0.1 := by norm_num
  rw [h1, h2, h3]
  have hA : invNorm (1 - (0.1 : ℝ) / 2)
      = some (42969791404899046865722752 / 26123778279302993257167985 : ℝ) := by
    rw [show (1 : ℝ) - 0.1 / 2 = 0.95 by norm_num]
    exact invNorm_val_095
  rw [computeSampleSize_eq_of 105 10 0.1 0.8 _ _ hA invNorm_val_08, if_pos (by norm_num)]
  have hc : (⌈(2 * ((42969791404899046865722752 / 26123778279302993257167985 : ℝ)
        + 510453168914629834438182 / 606511752633550076992765)
      * (42969791404899046865722752 / 26123778279302993257167985
        + 510453168914629834438182 / 606511752633550076992765) * 105 / (10 * 10))⌉) = 13 := by
    rw [Int.ceil_eq_iff]
    constructor <;> norm_num
  rw [hc]
  norm_num

theorem ruleRowN_C6_any_Sh :
    ruleRowN dataC6 ["VideoViews", "Shares"] RuleType.ANY_OF 0.2 0.8 0.1 "Shares"
      = some 1299 := by
  rw [ruleRowN_any_def, basePerUser_C6_Sh]
  have h1 : (1 : ℝ) * (1 + 0.05) = 21 / 20 := by norm_num
  have h2 : (1 : ℝ) * max 0 0.1 = 1 / 10 := by
    rw [max_eq_right (by norm_num : (0 : ℝ) ≤ 0.1)]; norm_num
  have h3 : ((0.2 : ℝ) / ((max 1 (["VideoViews", "Shares"] : List String).length : ℕ) : ℝ))
      = 0.1 := by norm_num
  rw [h1, h2, h3]
  have hA : invNorm (1 - (0.1 : ℝ) / 2)
      = some (42969791404899046865722752 / 26123778279302993257167985 : ℝ) := by
    rw [show (1 : ℝ) - 0.1 / 2 = 0.95 by norm_num]
    exact invNorm_val_095
  rw [computeSampleSize_eq_of (21 / 20) (1 / 10) 0.1 0.8 _ _ hA invNorm_val_08,
    if_pos (by norm_num)]
  have hc : (⌈(2 * ((42969791404899046865722752 / 26123778279302993257167985 : ℝ)
        + 510453168914629834438182 / 606511752633550076992765)
      * (42969791404899046865722752 / 26123778279302993257167985
        + 510453168914629834438182 / 606511752633550076992765) * (21 / 20)
      / (1 / 10 * (1 / 10)))⌉) = 1299 := by
    rw [Int.ceil_eq_iff]
    constructor <;> norm_num
  rw [hc]
  norm_num

theorem ruleRowN_C6_primary_Sh :
    ruleRowN dataC6 ["VideoViews", "Shares"] RuleType.PRIMARY 0.2 0.8 0.1 "Shares"
      = some 947 := by
  rw [ruleRowN_primary_def, basePerUser_C6_Sh]
  have h1 : (1 : ℝ) * (1 + 0.05) = 21 / 20 := by norm_num
  have h2 : (1 : ℝ) * max 0 0.1 = 1 / 10 := by
    rw [max_eq_right (by norm_num : (0 : ℝ) ≤ 0.1)]; norm_num
  rw [h1, h2]
  have hA : invNorm (1 - (0.2 : ℝ) / 2)
      = some (33127729296663180203 / 25849704548478267920 : ℝ) := by
    rw [show (1 : ℝ) - 0.2 / 2 = 0.9 by norm_num]
    exact invNorm_val_09
  rw [computeSampleSize_eq_of (21 / 20) (1 / 10) 0.2 0.8 _ _ hA invNorm_val_08,
    if_pos (by norm_num)]
  have hc : (⌈(2 * ((33127729296663180203 / 25849704548478267920 : ℝ)
        + 510453168914629834438182 / 606511752633550076992765)
      * (33127729296663180203 / 25849704548478267920
        + 510453168914629834438182 / 606511752633550076992765) * (21 / 20)
      / (1 / 10 * (1 / 10)))⌉) = 947 := by
    rw [Int.ceil_eq_iff]
    constructor <;> norm_num
  rw [hc]
  norm_num

theorem recommendedN_C6_any :
    recommendedN dataC6 ["VideoViews", "Shares"] RuleType.ANY_OF "VideoViews" 0.2 0.8 0.1
      = some 13 := by
  simp only [recommendedN, List.map_cons, List.map_nil, ruleRowN_C6_any_VV, ruleRowN_C6_any_Sh,
    Option.getD_some, List.foldl_cons, List.foldl_nil]
  norm_num

theorem recommendedN_C6_co :
    recommendedN dataC6 ["VideoViews", "Shares"] RuleType.CO_PRIMARY "VideoViews" 0.2 0.8 0.1
      = some 1299 := by
  simp only [recommendedN, List.map_cons, List.map_nil, ruleRowN_co_eq_any,
    ruleRowN_C6_any_VV, ruleRowN_C6_any_Sh, Option.getD_some, List.foldl_cons, List.foldl_nil]
  norm_num

theorem recommendedN_C6_primary_Sh :
    recommendedN dataC6 ["VideoViews", "Shares"] RuleType.PRIMARY "Shares" 0.2 0.8 0.1
      = some 947 := by
  simp only [recommendedN]
  rw [show List.find? (fun k => k = "Shares") ["VideoViews", "Shares"] = some "Shares" by decide]
  exact ruleRowN_C6_primary_Sh

/-- C6 (counterexample): same candidate set `{VideoViews, Shares}` (per-user
means 100 and 1), same `α = 0.2`, `power = 0.8`, `mdePct = 0.1`: the ANY_OF
recommended n is 13 (the easy metric's Bonferroni n), while the Shares
metric's own PRIMARY n at the *uncorrected* α is 947 — so the ANY_OF n is far
below a single metric's PRIMARY n, refuting the claimed ordering. -/
theorem anyOf_below_primary_counterexample :
    recommendedN dataC6 ["VideoViews", "Shares"] RuleType.ANY_OF "VideoViews" 0.2 0.8 0.1
        = some 13 ∧
    recommendedN dataC6 ["VideoViews", "Shares"] RuleType.PRIMARY "Shares" 0.2 0.8 0.1
        = some 947 ∧
    ¬ (947 : ℤ) ≤ 13 :=
  ⟨recommendedN_C6_any, recommendedN_C6_primary_Sh, by norm_num⟩

theorem coPrimary_ge_anyOf_witness : (13 : ℤ) ≤ 1299 :=
  coPrimary_ge_anyOf dataC6 ["VideoViews", "Shares"] "VideoViews" 0.2 0.8 0.1 1299 13
    recommendedN_C6_co recommendedN_C6_any

/- ----- C5: sample-size monotonicity ----- -/


set_option maxHeartbeats 1000000 in
theorem acklamP_pos_iv0 (r : ℝ) (hlo : 0 ≤ r) (hup : r ≤ (3621409 / 64000000 : ℝ)) :
    0 < acklamP r := by
  simp only [acklamP]
  linarith [pow_nonneg (by linarith : (0:ℝ) ≤ r) 2, pow_le_pow_left₀ (by linarith : (0:ℝ) ≤ r) (by linarith : r ≤ (3621409 / 64000000 : ℝ)) 2, pow_nonneg (by linarith : (0:ℝ) ≤ r) 3, pow_le_pow_left₀ (by linarith : (0:ℝ) ≤ r) (by linarith : r ≤ (3621409 / 64000000 : ℝ)) 3, pow_nonneg (by linarith : (0:ℝ) ≤ r) 4, pow_le_pow_left₀ (by linarith : (0:ℝ) ≤ r) (by linarith : r ≤ (3621409 / 64000000 : ℝ)) 4, pow_nonneg (by linarith : (0:ℝ) ≤ r) 5, pow_le_pow_left₀ (by linarith : (0:ℝ) ≤ r) (by linarith : r ≤ (3621409 / 64000000 : ℝ)) 5]

set_option maxHeartbeats 1000000 in
theorem acklamP_pos_iv1 (r : ℝ) (hlo : (3621409 / 64000000 : ℝ) < r) (hup : r ≤ (3621409 / 32000000 : ℝ)) :
    0 < acklamP r := by
  simp only [acklamP]
  linarith [pow_nonneg (by linarith : (0:ℝ) ≤ (r - (3621409 / 64000000 : ℝ))) 2, pow_le_pow_left₀ (by linarith : (0:ℝ) ≤ (r - (3621409 / 64000000 : ℝ))) (by linarith : (r - (3621409 / 64000000 : ℝ)) ≤ (3621409 / 64000000 : ℝ)) 2, pow_nonneg (by linarith : (0:ℝ) ≤ (r - (3621409 / 64000000 : ℝ))) 3, pow_le_pow_left₀ (by linarith : (0:ℝ) ≤ (r - (3621409 / 64000000 : ℝ))) (by linarith : (r - (3621409 / 64000000 : ℝ)) ≤ (3621409 / 64000000 : ℝ)) 3, pow_nonneg (by linarith : (0:ℝ) ≤ (r - (3621409 / 64000000 : ℝ))) 4, pow_le_pow_left₀ (by linarith : (0:ℝ) ≤ (r - (3621409 / 64000000 : ℝ))) (by linarith : (r - (3621409 / 64000000 : ℝ)) ≤ (3621409 / 64000000 : ℝ)) 4, pow_nonneg (by linarith : (0:ℝ) ≤ (r - (3621409 / 64000000 : ℝ))) 5, pow_le_pow_left₀ (by linarith : (0:ℝ) ≤ (r - (3621409 / 64000000 : ℝ))) (by linarith : (r - (3621409 / 64000000 : ℝ)) ≤ (3621409 / 64000000 : ℝ)) 5]

set_option maxHeartbeats 1000000 in
theorem acklamP_pos_iv2 (r : ℝ) (hlo : (3621409 / 32000000 : ℝ) < r) (hup : r ≤ (3621409 / 25600000 : ℝ)) :
    0 < acklamP r := by
  simp only [acklamP]
  linarith [pow_nonneg (by linarith : (0:ℝ) ≤ (r - (3621409 / 32000000 : ℝ))) 2, pow_le_pow_left₀ (by linarith : (0:ℝ) ≤ (r - (3621409 / 32000000 : ℝ))) (by linarith : (r - (3621409 / 32000000 : ℝ)) ≤ (3621409 / 128000000 : ℝ)) 2, pow_nonneg (by linarith : (0:ℝ) ≤ (r - (3621409 / 32000000 : ℝ))) 3, pow_le_pow_left₀ (by linarith : (0:ℝ) ≤ (r - (3621409 / 32000000 : ℝ))) (by linarith : (r - (3621409 / 32000000 : ℝ)) ≤ (3621409 / 128000000 : ℝ)) 3, pow_nonneg (by linarith : (0:ℝ) ≤ (r - (3621409 / 32000000 : ℝ))) 4, pow_le_pow_left₀ (by linarith : (0:ℝ) ≤ (r - (3621409 / 32000000 : ℝ))) (by linarith : (r - (3621409 / 32000000 : ℝ)) ≤ (3621409 / 128000000 : ℝ)) 4, pow_nonneg (by linarith : (0:ℝ) ≤ (r - (3621409 / 32000000 : ℝ))) 5, pow_le_pow_left₀ (by linarith : (0:ℝ) ≤ (r - (3621409 / 32000000 : ℝ))) (by linarith : (r - (3621409 / 32000000 : ℝ)) ≤ (3621409 / 128000000 : ℝ)) 5]

set_option maxHeartbeats 1000000 in
theorem acklamP_pos_iv3 (r : ℝ) (hlo : (3621409 / 25600000 : ℝ) < r) (hup : r ≤ (10864227 / 64000000 : ℝ)) :
    0 < acklamP r := by
  simp only [acklamP]
  linarith [pow_nonneg (by linarith : (0:ℝ) ≤ (r - (3621409 / 25600000 : ℝ))) 2, pow_le_pow_left₀ (by linarith : (0:ℝ) ≤ (r - (3621409 / 25600000 : ℝ))) (by linarith : (r - (3621409 / 25600000 : ℝ)) ≤ (3621409 / 128000000 : ℝ)) 2, pow_nonneg (by linarith : (0:ℝ) ≤ (r - (3621409 / 25600000 : ℝ))) 3, pow_le_pow_left₀ (by linarith : (0:ℝ) ≤ (r - (3621409 / 25600000 : ℝ))) (by linarith : (r - (3621409 / 25600000 : ℝ)) ≤ (3621409 / 128000000 : ℝ)) 3, pow_nonneg (by linarith : (0:ℝ) ≤ (r - (3621409 / 25600000 : ℝ))) 4, pow_le_pow_left₀ (by linarith : (0:ℝ) ≤ (r - (3621409 / 25600000 : ℝ))) (by linarith : (r - (3621409 / 25600000 : ℝ)) ≤ (3621409 / 128000000 : ℝ)) 4, pow_nonneg (by linarith : (0:ℝ) ≤ (r - (3621409 / 25600000 : ℝ))) 5, pow_le_pow_left₀ (by linarith : (0:ℝ) ≤ (r - (3621409 / 25600000 : ℝ))) (by linarith : (r - (3621409 / 25600000 : ℝ)) ≤ (3621409 / 128000000 : ℝ)) 5]

set_option maxHeartbeats 1000000 in
theorem acklamP_pos_iv4 (r : ℝ) (hlo : (10864227 / 64000000 : ℝ) < r) (hup : r ≤ (25349863 / 128000000 : ℝ)) :
    0 < acklamP r := by
  simp only [acklamP]
  linarith [pow_nonneg (by linarith : (0:ℝ) ≤ (r - (10864227 / 64000000 : ℝ))) 2, pow_le_pow_left₀ (by linarith : (0:ℝ) ≤ (r - (10864227 / 64000000 : ℝ))) (by linarith : (r - (10864227 / 64000000 : ℝ)) ≤ (3621409 / 128000000 : ℝ)) 2, pow_nonneg (by linarith : (0:ℝ) ≤ (r - (10864227 / 64000000 : ℝ))) 3, pow_le_pow_left₀ (by linarith : (0:ℝ) ≤ (r - (10864227 / 64000000 : ℝ))) (by linarith : (r - (10864227 / 64000000 : ℝ)) ≤ (3621409 / 128000000 : ℝ)) 3, pow_nonneg (by linarith : (0:ℝ) ≤ (r - (10864227 / 64000000 : ℝ))) 4, pow_le_pow_left₀ (by linarith : (0:ℝ) ≤ (r - (10864227 / 64000000 : ℝ))) (by linarith : (r - (10864227 / 64000000 : ℝ)) ≤ (3621409 / 128000000 : ℝ)) 4, pow_nonneg (by linarith : (0:ℝ) ≤ (r - (10864227 / 64000000 : ℝ))) 5, pow_le_pow_left₀ (by linarith : (0:ℝ) ≤ (r - (10864227 / 64000000 : ℝ))) (by linarith : (r - (10864227 / 64000000 : ℝ)) ≤ (3621409 / 128000000 : ℝ)) 5]

set_option maxHeartbeats 1000000 in
theorem acklamP_pos_iv5 (r : ℝ) (hlo : (25349863 / 128000000 : ℝ) < r) (hup : r ≤ (10864227 / 51200000 : ℝ)) :
    0 < acklamP r := by
  simp only [acklamP]
  linarith [pow_nonneg (by linarith : (0:ℝ) ≤ (r - (25349863 / 128000000 : ℝ))) 2, pow_le_pow_left₀ (by linarith : (0:ℝ) ≤ (r - (25349863 / 128000000 : ℝ))) (by linarith : (r - (25349863 / 128000000 : ℝ)) ≤ (3621409 / 256000000 : ℝ)) 2, pow_nonneg (by linarith : (0:ℝ) ≤ (r - (25349863 / 128000000 : ℝ))) 3, pow_le_pow_left₀ (by linarith : (0:ℝ) ≤ (r - (25349863 / 128000000 : ℝ))) (by linarith : (r - (25349863 / 128000000 : ℝ)) ≤ (3621409 / 256000000 : ℝ)) 3, pow_nonneg (by linarith : (0:ℝ) ≤ (r - (25349863 / 128000000 : ℝ))) 4, pow_le_pow_left₀ (by linarith : (0:ℝ) ≤ (r - (25349863 / 128000000 : ℝ))) (by linarith : (r - (25349863 / 128000000 : ℝ)) ≤ (3621409 / 256000000 : ℝ)) 4, pow_nonneg (by linarith : (0:ℝ) ≤ (r - (25349863 / 128000000 : ℝ))) 5, pow_le_pow_left₀ (by linarith : (0:ℝ) ≤ (r - (25349863 / 128000000 : ℝ))) (by linarith : (r - (25349863 / 128000000 : ℝ)) ≤ (3621409 / 256000000 : ℝ)) 5]

set_option maxHeartbeats 1000000 in
theorem acklamP_pos_iv6 (r : ℝ) (hlo : (10864227 / 51200000 : ℝ) < r) (hup : r ≤ (3621409 / 16000000 : ℝ)) :
    0 < acklamP r := by
  simp only [acklamP]
  linarith [pow_nonneg (by linarith : (0:ℝ) ≤ (r - (10864227 / 51200000 : ℝ))) 2, pow_le_pow_left₀ (by linarith : (0:ℝ) ≤ (r - (10864227 / 51200000 : ℝ))) (by linarith : (r - (10864227 / 51200000 : ℝ)) ≤ (3621409 / 256000000 : ℝ)) 2, pow_nonneg (by linarith : (0:ℝ) ≤ (r - (10864227 / 51200000 : ℝ))) 3, pow_le_pow_left₀ (by linarith : (0:ℝ) ≤ (r - (10864227 / 51200000 : ℝ))) (by linarith : (r - (10864227 / 51200000 : ℝ)) ≤ (3621409 / 256000000 : ℝ)) 3, pow_nonneg (by linarith : (0:ℝ) ≤ (r - (10864227 / 51200000 : ℝ))) 4, pow_le_pow_left₀ (by linarith : (0:ℝ) ≤ (r - (10864227 / 51200000 : ℝ))) (by linarith : (r - (10864227 / 51200000 : ℝ)) ≤ (3621409 / 256000000 : ℝ)) 4, pow_nonneg (by linarith : (0:ℝ) ≤ (r - (10864227 / 51200000 : ℝ))) 5, pow_le_pow_left₀ (by linarith : (0:ℝ) ≤ (r - (10864227 / 51200000 : ℝ))) (by linarith : (r - (10864227 / 51200000 : ℝ)) ≤ (3621409 / 256000000 : ℝ)) 5]

theorem acklamP_pos (r : ℝ) (h0 : 0 ≤ r) (hc : r ≤ 0.2263380625) : 0 < acklamP r := by
  rcases le_or_lt r (3621409 / 64000000 : ℝ) with hle0 | hgt1
  · exact acklamP_pos_iv0 r h0 hle0
  rcases le_or_lt r (3621409 / 32000000 : ℝ) with hle1 | hgt2
  · exact acklamP_pos_iv1 r hgt1 hle1
  rcases le_or_lt r (3621409 / 25600000 : ℝ) with hle2 | hgt3
  · exact acklamP_pos_iv2 r hgt2 hle2
  rcases le_or_lt r (10864227 / 64000000 : ℝ) with hle3 | hgt4
  · exact acklamP_pos_iv3 r hgt3 hle3
  rcases le_or_lt r (25349863 / 128000000 : ℝ) with hle4 | hgt5
  · exact acklamP_pos_iv4 r hgt4 hle4
  rcases le_or_lt r (10864227 / 51200000 : ℝ) with hle5 | hgt6
  · exact acklamP_pos_iv5 r hgt5 hle5
  exact acklamP_pos_iv6 r hgt6 (by linarith)

set_option maxHeartbeats 1000000 in
theorem acklamQ_pos_iv0 (r : ℝ) (hlo : 0 ≤ r) (hup : r ≤ (3621409 / 64000000 : ℝ)) :
    0 < acklamQ r := by
  simp only [acklamQ]
  linarith [pow_nonneg (by linarith : (0:ℝ) ≤ r) 2, pow_le_pow_left₀ (by linarith : (0:ℝ) ≤ r) (by linarith : r ≤ (3621409 / 64000000 : ℝ)) 2, pow_nonneg (by linarith : (0:ℝ) ≤ r) 3, pow_le_pow_left₀ (by linarith : (0:ℝ) ≤ r) (by linarith : r ≤ (3621409 / 64000000 : ℝ)) 3, pow_nonneg (by linarith : (0:ℝ) ≤ r) 4, pow_le_pow_left₀ (by linarith : (0:ℝ) ≤ r) (by linarith : r ≤ (3621409 / 64000000 : ℝ)) 4, pow_nonneg (by linarith : (0:ℝ) ≤ r) 5, pow_le_pow_left₀ (by linarith : (0:ℝ) ≤ r) (by linarith : r ≤ (3621409 / 64000000 : ℝ)) 5]

set_option maxHeartbeats 1000000 in
theorem acklamQ_pos_iv1 (r : ℝ) (hlo : (3621409 / 64000000 : ℝ) < r) (hup : r ≤ (3621409 / 32000000 : ℝ)) :
    0 < acklamQ r := by
  simp only [acklamQ]
  linarith [pow_nonneg (by linarith : (0:ℝ) ≤ (r - (3621409 / 64000000 : ℝ))) 2, pow_le_pow_left₀ (by linarith : (0:ℝ) ≤ (r - (3621409 / 64000000 : ℝ))) (by linarith : (r - (3621409 / 64000000 : ℝ)) ≤ (3621409 / 64000000 : ℝ)) 2, pow_nonneg (by linarith : (0:ℝ) ≤ (r - (3621409 / 64000000 : ℝ))) 3, pow_le_pow_left₀ (by linarith : (0:ℝ) ≤ (r - (3621409 / 64000000 : ℝ))) (by linarith : (r - (3621409 / 64000000 : ℝ)) ≤ (3621409 / 64000000 : ℝ)) 3, pow_nonneg (by linarith : (0:ℝ) ≤ (r - (3621409 / 64000000 : ℝ))) 4, pow_le_pow_left₀ (by linarith : (0:ℝ) ≤ (r - (3621409 / 64000000 : ℝ))) (by linarith : (r - (3621409 / 64000000 : ℝ)) ≤ (3621409 / 64000000 : ℝ)) 4, pow_nonneg (by linarith : (0:ℝ) ≤ (r - (3621409 / 64000000 : ℝ))) 5, pow_le_pow_left₀ (by linarith : (0:ℝ) ≤ (r - (3621409 / 64000000 : ℝ))) (by linarith : (r - (3621409 / 64000000 : ℝ)) ≤ (3621409 / 64000000 : ℝ)) 5]

set_option maxHeartbeats 1000000 in
theorem acklamQ_pos_iv2 (r : ℝ) (hlo : (3621409 / 32000000 : ℝ) < r) (hup : r ≤ (3621409 / 25600000 : ℝ)) :
    0 < acklamQ r := by
  simp only [acklamQ]
  linarith [pow_nonneg (by linarith : (0:ℝ) ≤ (r - (3621409 / 32000000 : ℝ))) 2, pow_le_pow_left₀ (by linarith : (0:ℝ) ≤ (r - (3621409 / 32000000 : ℝ))) (by linarith : (r - (3621409 / 32000000 : ℝ)) ≤ (3621409 / 128000000 : ℝ)) 2, pow_nonneg (by linarith : (0:ℝ) ≤ (r - (3621409 / 32000000 : ℝ))) 3, pow_le_pow_left₀ (by linarith : (0:ℝ) ≤ (r - (3621409 / 32000000 : ℝ))) (by linarith : (r - (3621409 / 32000000 : ℝ)) ≤ (3621409 / 128000000 : ℝ)) 3, pow_nonneg (by linarith : (0:ℝ) ≤ (r - (3621409 / 32000000 : ℝ))) 4, pow_le_pow_left₀ (by linarith : (0:ℝ) ≤ (r - (3621409 / 32000000 : ℝ))) (by linarith : (r - (3621409 / 32000000 : ℝ)) ≤ (3621409 / 128000000 : ℝ)) 4, pow_nonneg (by linarith : (0:ℝ) ≤ (r - (3621409 / 32000000 : ℝ))) 5, pow_le_pow_left₀ (by linarith : (0:ℝ) ≤ (r - (3621409 / 32000000 : ℝ))) (by linarith : (r - (3621409 / 32000000 : ℝ)) ≤ (3621409 / 128000000 : ℝ)) 5]

set_option maxHeartbeats 1000000 in
theorem acklamQ_pos_iv3 (r : ℝ) (hlo : (3621409 / 25600000 : ℝ) < r) (hup : r ≤ (10864227 / 64000000 : ℝ)) :
    0 < acklamQ r := by
  simp only [acklamQ]
  linarith [pow_nonneg (by linarith : (0:ℝ) ≤ (r - (3621409 / 25600000 : ℝ))) 2, pow_le_pow_left₀ (by linarith : (0:ℝ) ≤ (r - (3621409 / 25600000 : ℝ))) (by linarith : (r - (3621409 / 25600000 : ℝ)) ≤ (3621409 / 128000000 : ℝ)) 2, pow_nonneg (by linarith : (0:ℝ) ≤ (r - (3621409 / 25600000 : ℝ))) 3, pow_le_pow_left₀ (by linarith : (0:ℝ) ≤ (r - (3621409 / 25600000 : ℝ))) (by linarith : (r - (3621409 / 25600000 : ℝ)) ≤ (3621409 / 128000000 : ℝ)) 3, pow_nonneg (by linarith : (0:ℝ) ≤ (r - (3621409 / 25600000 : ℝ))) 4, pow_le_pow_left₀ (by linarith : (0:ℝ) ≤ (r - (3621409 / 25600000 : ℝ))) (by linarith : (r - (3621409 / 25600000 : ℝ)) ≤ (3621409 / 128000000 : ℝ)) 4, pow_nonneg (by linarith : (0:ℝ) ≤ (r - (3621409 / 25600000 : ℝ))) 5, pow_le_pow_left₀ (by linarith : (0:ℝ) ≤ (r - (3621409 / 25600000 : ℝ))) (by linarith : (r - (3621409 / 25600000 : ℝ)) ≤ (3621409 / 128000000 : ℝ)) 5]

set_option maxHeartbeats 1000000 in
theorem acklamQ_pos_iv4 (r : ℝ) (hlo : (10864227 / 64000000 : ℝ) < r) (hup : r ≤ (25349863 / 128000000 : ℝ)) :
    0 < acklamQ r := by
  simp only [acklamQ]
  linarith [pow_nonneg (by linarith : (0:ℝ) ≤ (r - (10864227 / 64000000 : ℝ))) 2, pow_le_pow_left₀ (by linarith : (0:ℝ) ≤ (r - (10864227 / 64000000 : ℝ))) (by linarith : (r - (10864227 / 64000000 : ℝ)) ≤ (3621409 / 128000000 : ℝ)) 2, pow_nonneg (by linarith : (0:ℝ) ≤ (r - (10864227 / 64000000 : ℝ))) 3, pow_le_pow_left₀ (by linarith : (0:ℝ) ≤ (r - (10864227 / 64000000 : ℝ))) (by linarith : (r - (10864227 / 64000000 : ℝ)) ≤ (3621409 / 128000000 : ℝ)) 3, pow_nonneg (by linarith : (0:ℝ) ≤ (r - (10864227 / 64000000 : ℝ))) 4, pow_le_pow_left₀ (by linarith : (0:ℝ) ≤ (r - (10864227 / 64000000 : ℝ))) (by linarith : (r - (10864227 / 64000000 : ℝ)) ≤ (3621409 / 128000000 : ℝ)) 4, pow_nonneg (by linarith : (0:ℝ) ≤ (r - (10864227 / 64000000 : ℝ))) 5, pow_le_pow_left₀ (by linarith : (0:ℝ) ≤ (r - (10864227 / 64000000 : ℝ))) (by linarith : (r - (10864227 / 64000000 : ℝ)) ≤ (3621409 / 128000000 : ℝ)) 5]

set_option maxHeartbeats 1000000 in
theorem acklamQ_pos_iv5 (r : ℝ) (hlo : (25349863 / 128000000 : ℝ) < r) (hup : r ≤ (10864227 / 51200000 : ℝ)) :
    0 < acklamQ r := by
  simp only [acklamQ]
  linarith [pow_nonneg (by linarith : (0:ℝ) ≤ (r - (25349863 / 128000000 : ℝ))) 2, pow_le_pow_left₀ (by linarith : (0:ℝ) ≤ (r - (25349863 / 128000000 : ℝ))) (by linarith : (r - (25349863 / 128000000 : ℝ)) ≤ (3621409 / 256000000 : ℝ)) 2, pow_nonneg (by linarith : (0:ℝ) ≤ (r - (25349863 / 128000000 : ℝ))) 3, pow_le_pow_left₀ (by linarith : (0:ℝ) ≤ (r - (25349863 / 128000000 : ℝ))) (by linarith : (r - (25349863 / 128000000 : ℝ)) ≤ (3621409 / 256000000 : ℝ)) 3, pow_nonneg (by linarith : (0:ℝ) ≤ (r - (25349863 / 128000000 : ℝ))) 4, pow_le_pow_left₀ (by linarith : (0:ℝ) ≤ (r - (25349863 / 128000000 : ℝ))) (by linarith : (r - (25349863 / 128000000 : ℝ)) ≤ (3621409 / 256000000 : ℝ)) 4, pow_nonneg (by linarith : (0:ℝ) ≤ (r - (25349863 / 128000000 : ℝ))) 5, pow_le_pow_left₀ (by linarith : (0:ℝ) ≤ (r - (25349863 / 128000000 : ℝ))) (by linarith : (r - (25349863 / 128000000 : ℝ)) ≤ (3621409 / 256000000 : ℝ)) 5]

set_option maxHeartbeats 1000000 in
theorem acklamQ_pos_iv6 (r : ℝ) (hlo : (10864227 / 51200000 : ℝ) < r) (hup : r ≤ (3621409 / 16000000 : ℝ)) :
    0 < acklamQ r := by
  simp only [acklamQ]
  linarith [pow_nonneg (by linarith : (0:ℝ) ≤ (r - (10864227 / 51200000 : ℝ))) 2, pow_le_pow_left₀ (by linarith : (0:ℝ) ≤ (r - (10864227 / 51200000 : ℝ))) (by linarith : (r - (10864227 / 51200000 : ℝ)) ≤ (3621409 / 256000000 : ℝ)) 2, pow_nonneg (by linarith : (0:ℝ) ≤ (r - (10864227 / 51200000 : ℝ))) 3, pow_le_pow_left₀ (by linarith : (0:ℝ) ≤ (r - (10864227 / 51200000 : ℝ))) (by linarith : (r - (10864227 / 51200000 : ℝ)) ≤ (3621409 / 256000000 : ℝ)) 3, pow_nonneg (by linarith : (0:ℝ) ≤ (r - (10864227 / 51200000 : ℝ))) 4, pow_le_pow_left₀ (by linarith : (0:ℝ) ≤ (r - (10864227 / 51200000 : ℝ))) (by linarith : (r - (10864227 / 51200000 : ℝ)) ≤ (3621409 / 256000000 : ℝ)) 4, pow_nonneg (by linarith : (0:ℝ) ≤ (r - (10864227 / 51200000 : ℝ))) 5, pow_le_pow_left₀ (by linarith : (0:ℝ) ≤ (r - (10864227 / 51200000 : ℝ))) (by linarith : (r - (10864227 / 51200000 : ℝ)) ≤ (3621409 / 256000000 : ℝ)) 5]

theorem acklamQ_pos (r : ℝ) (h0 : 0 ≤ r) (hc : r ≤ 0.2263380625) : 0 < acklamQ r := by
  rcases le_or_lt r (3621409 / 64000000 : ℝ) with hle0 | hgt1
  · exact acklamQ_pos_iv0 r h0 hle0
  rcases le_or_lt r (3621409 / 32000000 : ℝ) with hle1 | hgt2
  · exact acklamQ_pos_iv1 r hgt1 hle1
  rcases le_or_lt r (3621409 / 25600000 : ℝ) with hle2 | hgt3
  · exact acklamQ_pos_iv2 r hgt2 hle2
  rcases le_or_lt r (10864227 / 64000000 : ℝ) with hle3 | hgt4
  · exact acklamQ_pos_iv3 r hgt3 hle3
  rcases le_or_lt r (25349863 / 128000000 : ℝ) with hle4 | hgt5
  · exact acklamQ_pos_iv4 r hgt4 hle4
  rcases le_or_lt r (10864227 / 51200000 : ℝ) with hle5 | hgt6
  · exact acklamQ_pos_iv5 r hgt5 hle5
  exact acklamQ_pos_iv6 r hgt6 (by linarith)

set_option maxHeartbeats 1000000 in
theorem acklamH_pos_iv0 (r : ℝ) (hlo : 0 ≤ r) (hup : r ≤ (3621409 / 128000000 : ℝ)) :
    0 < acklamH r := by
  simp only [acklamH, acklamP, acklamQ, acklamPd, acklamQd]
  linarith [pow_nonneg (by linarith : (0:ℝ) ≤ r) 2, pow_le_pow_left₀ (by linarith : (0:ℝ) ≤ r) (by linarith : r ≤ (3621409 / 128000000 : ℝ)) 2, pow_nonneg (by linarith : (0:ℝ) ≤ r) 3, pow_le_pow_left₀ (by linarith : (0:ℝ) ≤ r) (by linarith : r ≤ (3621409 / 128000000 : ℝ)) 3, pow_nonneg (by linarith : (0:ℝ) ≤ r) 4, pow_le_pow_left₀ (by linarith : (0:ℝ) ≤ r) (by linarith : r ≤ (3621409 / 128000000 : ℝ)) 4, pow_nonneg (by linarith : (0:ℝ) ≤ r) 5, pow_le_pow_left₀ (by linarith : (0:ℝ) ≤ r) (by linarith : r ≤ (3621409 / 128000000 : ℝ)) 5, pow_nonneg (by linarith : (0:ℝ) ≤ r) 6, pow_le_pow_left₀ (by linarith : (0:ℝ) ≤ r) (by linarith : r ≤ (3621409 / 128000000 : ℝ)) 6, pow_nonneg (by linarith : (0:ℝ) ≤ r) 7, pow_le_pow_left₀ (by linarith : (0:ℝ) ≤ r) (by linarith : r ≤ (3621409 / 128000000 : ℝ)) 7, pow_nonneg (by linarith : (0:ℝ) ≤ r) 8, pow_le_pow_left₀ (by linarith : (0:ℝ) ≤ r) (by linarith : r ≤ (3621409 / 128000000 : ℝ)) 8]

set_option maxHeartbeats 1000000 in
theorem acklamH_pos_iv1 (r : ℝ) (hlo : (3621409 / 128000000 : ℝ) < r) (hup : r ≤ (3621409 / 64000000 : ℝ)) :
    0 < acklamH r := by
  simp only [acklamH, acklamP, acklamQ, acklamPd, acklamQd]
  linarith [pow_nonneg (by linarith : (0:ℝ) ≤ (r - (3621409 / 128000000 : ℝ))) 2, pow_le_pow_left₀ (by linarith : (0:ℝ) ≤ (r - (3621409 / 128000000 : ℝ))) (by linarith : (r - (3621409 / 128000000 : ℝ)) ≤ (3621409 / 128000000 : ℝ)) 2, pow_nonneg (by linarith : (0:ℝ) ≤ (r - (3621409 / 128000000 : ℝ))) 3, pow_le_pow_left₀ (by linarith : (0:ℝ) ≤ (r - (3621409 / 128000000 : ℝ))) (by linarith : (r - (3621409 / 128000000 : ℝ)) ≤ (3621409 / 128000000 : ℝ)) 3, pow_nonneg (by linarith : (0:ℝ) ≤ (r - (3621409 / 128000000 : ℝ))) 4, pow_le_pow_left₀ (by linarith : (0:ℝ) ≤ (r - (3621409 / 128000000 : ℝ))) (by linarith : (r - (3621409 / 128000000 : ℝ)) ≤ (3621409 / 128000000 : ℝ)) 4, pow_nonneg (by linarith : (0:ℝ) ≤ (r - (3621409 / 128000000 : ℝ))) 5, pow_le_pow_left₀ (by linarith : (0:ℝ) ≤ (r - (3621409 / 128000000 : ℝ))) (by linarith : (r - (3621409 / 128000000 : ℝ)) ≤ (3621409 / 128000000 : ℝ)) 5, pow_nonneg (by linarith : (0:ℝ) ≤ (r - (3621409 / 128000000 : ℝ))) 6, pow_le_pow_left₀ (by linarith : (0:ℝ) ≤ (r - (3621409 / 128000000 : ℝ))) (by linarith : (r - (3621409 / 128000000 : ℝ)) ≤ (3621409 / 128000000 : ℝ)) 6, pow_nonneg (by linarith : (0:ℝ) ≤ (r - (3621409 / 128000000 : ℝ))) 7, pow_le_pow_left₀ (by linarith : (0:ℝ) ≤ (r - (3621409 / 128000000 : ℝ))) (by linarith : (r - (3621409 / 128000000 : ℝ)) ≤ (3621409 / 128000000 : ℝ)) 7, pow_nonneg (by linarith : (0:ℝ) ≤ (r - (3621409 / 128000000 : ℝ))) 8, pow_le_pow_left₀ (by linarith : (0:ℝ) ≤ (r - (3621409 / 128000000 : ℝ))) (by linarith : (r - (3621409 / 128000000 : ℝ)) ≤ (3621409 / 128000000 : ℝ)) 8]

set_option maxHeartbeats 1000000 in
theorem acklamH_pos_iv2 (r : ℝ) (hlo : (3621409 / 64000000 : ℝ) < r) (hup : r ≤ (10864227 / 128000000 : ℝ)) :
    0 < acklamH r := by
  simp only [acklamH, acklamP, acklamQ, acklamPd, acklamQd]
  linarith [pow_nonneg (by linarith : (0:ℝ) ≤ (r - (3621409 / 64000000 : ℝ))) 2, pow_le_pow_left₀ (by linarith : (0:ℝ) ≤ (r - (3621409 / 64000000 : ℝ))) (by linarith : (r - (3621409 / 64000000 : ℝ)) ≤ (3621409 / 128000000 : ℝ)) 2, pow_nonneg (by linarith : (0:ℝ) ≤ (r - (3621409 / 64000000 : ℝ))) 3, pow_le_pow_left₀ (by linarith : (0:ℝ) ≤ (r - (3621409 / 64000000 : ℝ))) (by linarith : (r - (3621409 / 64000000 : ℝ)) ≤ (3621409 / 128000000 : ℝ)) 3, pow_nonneg (by linarith : (0:ℝ) ≤ (r - (3621409 / 64000000 : ℝ))) 4, pow_le_pow_left₀ (by linarith : (0:ℝ) ≤ (r - (3621409 / 64000000 : ℝ))) (by linarith : (r - (3621409 / 64000000 : ℝ)) ≤ (3621409 / 128000000 : ℝ)) 4, pow_nonneg (by linarith : (0:ℝ) ≤ (r - (3621409 / 64000000 : ℝ))) 5, pow_le_pow_left₀ (by linarith : (0:ℝ) ≤ (r - (3621409 / 64000000 : ℝ))) (by linarith : (r - (3621409 / 64000000 : ℝ)) ≤ (3621409 / 128000000 : ℝ)) 5, pow_nonneg (by linarith : (0:ℝ) ≤ (r - (3621409 / 64000000 : ℝ))) 6, pow_le_pow_left₀ (by linarith : (0:ℝ) ≤ (r - (3621409 / 64000000 : ℝ))) (by linarith : (r - (3621409 / 64000000 : ℝ)) ≤ (3621409 / 128000000 : ℝ)) 6, pow_nonneg (by linarith : (0:ℝ) ≤ (r - (3621409 / 64000000 : ℝ))) 7, pow_le_pow_left₀ (by linarith : (0:ℝ) ≤ (r - (3621409 / 64000000 : ℝ))) (by linarith : (r - (3621409 / 64000000 : ℝ)) ≤ (3621409 / 128000000 : ℝ)) 7, pow_nonneg (by linarith : (0:ℝ) ≤ (r - (3621409 / 64000000 : ℝ))) 8, pow_le_pow_left₀ (by linarith : (0:ℝ) ≤ (r - (3621409 / 64000000 : ℝ))) (by linarith : (r - (3621409 / 64000000 : ℝ)) ≤ (3621409 / 128000000 : ℝ)) 8]

set_option maxHeartbeats 1000000 in
theorem acklamH_pos_iv3 (r : ℝ) (hlo : (10864227 / 128000000 : ℝ) < r) (hup : r ≤ (3621409 / 32000000 : ℝ)) :
    0 < acklamH r := by
  simp only [acklamH, acklamP, acklamQ, acklamPd, acklamQd]
  linarith [pow_nonneg (by linarith : (0:ℝ) ≤ (r - (10864227 / 128000000 : ℝ))) 2, pow_le_pow_left₀ (by linarith : (0:ℝ) ≤ (r - (10864227 / 128000000 : ℝ))) (by linarith : (r - (10864227 / 128000000 : ℝ)) ≤ (3621409 / 128000000 : ℝ)) 2, pow_nonneg (by linarith : (0:ℝ) ≤ (r - (10864227 / 128000000 : ℝ))) 3, pow_le_pow_left₀ (by linarith : (0:ℝ) ≤ (r - (10864227 / 128000000 : ℝ))) (by linarith : (r - (10864227 / 128000000 : ℝ)) ≤ (3621409 / 128000000 : ℝ)) 3, pow_nonneg (by linarith : (0:ℝ) ≤ (r - (10864227 / 128000000 : ℝ))) 4, pow_le_pow_left₀ (by linarith : (0:ℝ) ≤ (r - (10864227 / 128000000 : ℝ))) (by linarith : (r - (10864227 / 128000000 : ℝ)) ≤ (3621409 / 128000000 : ℝ)) 4, pow_nonneg (by linarith : (0:ℝ) ≤ (r - (10864227 / 128000000 : ℝ))) 5, pow_le_pow_left₀ (by linarith : (0:ℝ) ≤ (r - (10864227 / 128000000 : ℝ))) (by linarith : (r - (10864227 / 128000000 : ℝ)) ≤ (3621409 / 128000000 : ℝ)) 5, pow_nonneg (by linarith : (0:ℝ) ≤ (r - (10864227 / 128000000 : ℝ))) 6, pow_le_pow_left₀ (by linarith : (0:ℝ) ≤ (r - (10864227 / 128000000 : ℝ))) (by linarith : (r - (10864227 / 128000000 : ℝ)) ≤ (3621409 / 128000000 : ℝ)) 6, pow_nonneg (by linarith : (0:ℝ) ≤ (r - (10864227 / 128000000 : ℝ))) 7, pow_le_pow_left₀ (by linarith : (0:ℝ) ≤ (r - (10864227 / 128000000 : ℝ))) (by linarith : (r - (10864227 / 128000000 : ℝ)) ≤ (3621409 / 128000000 : ℝ)) 7, pow_nonneg (by linarith : (0:ℝ) ≤ (r - (10864227 / 128000000 : ℝ))) 8, pow_le_pow_left₀ (by linarith : (0:ℝ) ≤ (r - (10864227 / 128000000 : ℝ))) (by linarith : (r - (10864227 / 128000000 : ℝ)) ≤ (3621409 / 128000000 : ℝ)) 8]

set_option maxHeartbeats 1000000 in
theorem acklamH_pos_iv4 (r : ℝ) (hlo : (3621409 / 32000000 : ℝ) < r) (hup : r ≤ (32592681 / 256000000 : ℝ)) :
    0 < acklamH r := by
  simp only [acklamH, acklamP, acklamQ, acklamPd, acklamQd]
  linarith [pow_nonneg (by linarith : (0:ℝ) ≤ (r - (3621409 / 32000000 : ℝ))) 2, pow_le_pow_left₀ (by linarith : (0:ℝ) ≤ (r - (3621409 / 32000000 : ℝ))) (by linarith : (r - (3621409 / 32000000 : ℝ)) ≤ (3621409 / 256000000 : ℝ)) 2, pow_nonneg (by linarith : (0:ℝ) ≤ (r - (3621409 / 32000000 : ℝ))) 3, pow_le_pow_left₀ (by linarith : (0:ℝ) ≤ (r - (3621409 / 32000000 : ℝ))) (by linarith : (r - (3621409 / 32000000 : ℝ)) ≤ (3621409 / 256000000 : ℝ)) 3, pow_nonneg (by linarith : (0:ℝ) ≤ (r - (3621409 / 32000000 : ℝ))) 4, pow_le_pow_left₀ (by linarith : (0:ℝ) ≤ (r - (3621409 / 32000000 : ℝ))) (by linarith : (r - (3621409 / 32000000 : ℝ)) ≤ (3621409 / 256000000 : ℝ)) 4, pow_nonneg (by linarith : (0:ℝ) ≤ (r - (3621409 / 32000000 : ℝ))) 5, pow_le_pow_left₀ (by linarith : (0:ℝ) ≤ (r - (3621409 / 32000000 : ℝ))) (by linarith : (r - (3621409 / 32000000 : ℝ)) ≤ (3621409 / 256000000 : ℝ)) 5, pow_nonneg (by linarith : (0:ℝ) ≤ (r - (3621409 / 32000000 : ℝ))) 6, pow_le_pow_left₀ (by linarith : (0:ℝ) ≤ (r - (3621409 / 32000000 : ℝ))) (by linarith : (r - (3621409 / 32000000 : ℝ)) ≤ (3621409 / 256000000 : ℝ)) 6, pow_nonneg (by linarith : (0:ℝ) ≤ (r - (3621409 / 32000000 : ℝ))) 7, pow_le_pow_left₀ (by linarith : (0:ℝ) ≤ (r - (3621409 / 32000000 : ℝ))) (by linarith : (r - (3621409 / 32000000 : ℝ)) ≤ (3621409 / 256000000 : ℝ)) 7, pow_nonneg (by linarith : (0:ℝ) ≤ (r - (3621409 / 32000000 : ℝ))) 8, pow_le_pow_left₀ (by linarith : (0:ℝ) ≤ (r - (3621409 / 32000000 : ℝ))) (by linarith : (r - (3621409 / 32000000 : ℝ)) ≤ (3621409 / 256000000 : ℝ)) 8]

set_option maxHeartbeats 1000000 in
theorem acklamH_pos_iv5 (r : ℝ) (hlo : (32592681 / 256000000 : ℝ) < r) (hup : r ≤ (3621409 / 25600000 : ℝ)) :
    0 < acklamH r := by
  simp only [acklamH, acklamP, acklamQ, acklamPd, acklamQd]
  linarith [pow_nonneg (by linarith : (0:ℝ) ≤ (r - (32592681 / 256000000 : ℝ))) 2, pow_le_pow_left₀ (by linarith : (0:ℝ) ≤ (r - (32592681 / 256000000 : ℝ))) (by linarith : (r - (32592681 / 256000000 : ℝ)) ≤ (3621409 / 256000000 : ℝ)) 2, pow_nonneg (by linarith : (0:ℝ) ≤ (r - (32592681 / 256000000 : ℝ))) 3, pow_le_pow_left₀ (by linarith : (0:ℝ) ≤ (r - (32592681 / 256000000 : ℝ))) (by linarith : (r - (32592681 / 256000000 : ℝ)) ≤ (3621409 / 256000000 : ℝ)) 3, pow_nonneg (by linarith : (0:ℝ) ≤ (r - (32592681 / 256000000 : ℝ))) 4, pow_le_pow_left₀ (by linarith : (0:ℝ) ≤ (r - (32592681 / 256000000 : ℝ))) (by linarith : (r - (32592681 / 256000000 : ℝ)) ≤ (3621409 / 256000000 : ℝ)) 4, pow_nonneg (by linarith : (0:ℝ) ≤ (r - (32592681 / 256000000 : ℝ))) 5, pow_le_pow_left₀ (by linarith : (0:ℝ) ≤ (r - (32592681 / 256000000 : ℝ))) (by linarith : (r - (32592681 / 256000000 : ℝ)) ≤ (3621409 / 256000000 : ℝ)) 5, pow_nonneg (by linarith : (0:ℝ) ≤ (r - (32592681 / 256000000 : ℝ))) 6, pow_le_pow_left₀ (by linarith : (0:ℝ) ≤ (r - (32592681 / 256000000 : ℝ))) (by linarith : (r - (32592681 / 256000000 : ℝ)) ≤ (3621409 / 256000000 : ℝ)) 6, pow_nonneg (by linarith : (0:ℝ) ≤ (r - (32592681 / 256000000 : ℝ))) 7, pow_le_pow_left₀ (by linarith : (0:ℝ) ≤ (r - (32592681 / 256000000 : ℝ))) (by linarith : (r - (32592681 / 256000000 : ℝ)) ≤ (3621409 / 256000000 : ℝ)) 7, pow_nonneg (by linarith : (0:ℝ) ≤ (r - (32592681 / 256000000 : ℝ))) 8, pow_le_pow_left₀ (by linarith : (0:ℝ) ≤ (r - (32592681 / 256000000 : ℝ))) (by linarith : (r - (32592681 / 256000000 : ℝ)) ≤ (3621409 / 256000000 : ℝ)) 8]

set_option maxHeartbeats 1000000 in
theorem acklamH_pos_iv6 (r : ℝ) (hlo : (3621409 / 25600000 : ℝ) < r) (hup : r ≤ (39835499 / 256000000 : ℝ)) :
    0 < acklamH r := by
  simp only [acklamH, acklamP, acklamQ, acklamPd, acklamQd]
  linarith [pow_nonneg (by linarith : (0:ℝ) ≤ (r - (3621409 / 25600000 : ℝ))) 2, pow_le_pow_left₀ (by linarith : (0:ℝ) ≤ (r - (3621409 / 25600000 : ℝ))) (by linarith : (r - (3621409 / 25600000 : ℝ)) ≤ (3621409 / 256000000 : ℝ)) 2, pow_nonneg (by linarith : (0:ℝ) ≤ (r - (3621409 / 25600000 : ℝ))) 3, pow_le_pow_left₀ (by linarith : (0:ℝ) ≤ (r - (3621409 / 25600000 : ℝ))) (by linarith : (r - (3621409 / 25600000 : ℝ)) ≤ (3621409 / 256000000 : ℝ)) 3, pow_nonneg (by linarith : (0:ℝ) ≤ (r - (3621409 / 25600000 : ℝ))) 4, pow_le_pow_left₀ (by linarith : (0:ℝ) ≤ (r - (3621409 / 25600000 : ℝ))) (by linarith : (r - (3621409 / 25600000 : ℝ)) ≤ (3621409 / 256000000 : ℝ)) 4, pow_nonneg (by linarith : (0:ℝ) ≤ (r - (3621409 / 25600000 : ℝ))) 5, pow_le_pow_left₀ (by linarith : (0:ℝ) ≤ (r - (3621409 / 25600000 : ℝ))) (by linarith : (r - (3621409 / 25600000 : ℝ)) ≤ (3621409 / 256000000 : ℝ)) 5, pow_nonneg (by linarith : (0:ℝ) ≤ (r - (3621409 / 25600000 : ℝ))) 6, pow_le_pow_left₀ (by linarith : (0:ℝ) ≤ (r - (3621409 / 25600000 : ℝ))) (by linarith : (r - (3621409 / 25600000 : ℝ)) ≤ (3621409 / 256000000 : ℝ)) 6, pow_nonneg (by linarith : (0:ℝ) ≤ (r - (3621409 / 25600000 : ℝ))) 7, pow_le_pow_left₀ (by linarith : (0:ℝ) ≤ (r - (3621409 / 25600000 : ℝ))) (by linarith : (r - (3621409 / 25600000 : ℝ)) ≤ (3621409 / 256000000 : ℝ)) 7, pow_nonneg (by linarith : (0:ℝ) ≤ (r - (3621409 / 25600000 : ℝ))) 8, pow_le_pow_left₀ (by linarith : (0:ℝ) ≤ (r - (3621409 / 25600000 : ℝ))) (by linarith : (r - (3621409 / 25600000 : ℝ)) ≤ (3621409 / 256000000 : ℝ)) 8]

set_option maxHeartbeats 1000000 in
theorem acklamH_pos_iv7 (r : ℝ) (hlo : (39835499 / 256000000 : ℝ) < r) (hup : r ≤ (10864227 / 64000000 : ℝ)) :
    0 < acklamH r := by
  simp only [acklamH, acklamP, acklamQ, acklamPd, acklamQd]
  linarith [pow_nonneg (by linarith : (0:ℝ) ≤ (r - (39835499 / 256000000 : ℝ))) 2, pow_le_pow_left₀ (by linarith : (0:ℝ) ≤ (r - (39835499 / 256000000 : ℝ))) (by linarith : (r - (39835499 / 256000000 : ℝ)) ≤ (3621409 / 256000000 : ℝ)) 2, pow_nonneg (by linarith : (0:ℝ) ≤ (r - (39835499 / 256000000 : ℝ))) 3, pow_le_pow_left₀ (by linarith : (0:ℝ) ≤ (r - (39835499 / 256000000 : ℝ))) (by linarith : (r - (39835499 / 256000000 : ℝ)) ≤ (3621409 / 256000000 : ℝ)) 3, pow_nonneg (by linarith : (0:ℝ) ≤ (r - (39835499 / 256000000 : ℝ))) 4, pow_le_pow_left₀ (by linarith : (0:ℝ) ≤ (r - (39835499 / 256000000 : ℝ))) (by linarith : (r - (39835499 / 256000000 : ℝ)) ≤ (3621409 / 256000000 : ℝ)) 4, pow_nonneg (by linarith : (0:ℝ) ≤ (r - (39835499 / 256000000 : ℝ))) 5, pow_le_pow_left₀ (by linarith : (0:ℝ) ≤ (r - (39835499 / 256000000 : ℝ))) (by linarith : (r - (39835499 / 256000000 : ℝ)) ≤ (3621409 / 256000000 : ℝ)) 5, pow_nonneg (by linarith : (0:ℝ) ≤ (r - (39835499 / 256000000 : ℝ))) 6, pow_le_pow_left₀ (by linarith : (0:ℝ) ≤ (r - (39835499 / 256000000 : ℝ))) (by linarith : (r - (39835499 / 256000000 : ℝ)) ≤ (3621409 / 256000000 : ℝ)) 6, pow_nonneg (by linarith : (0:ℝ) ≤ (r - (39835499 / 256000000 : ℝ))) 7, pow_le_pow_left₀ (by linarith : (0:ℝ) ≤ (r - (39835499 / 256000000 : ℝ))) (by linarith : (r - (39835499 / 256000000 : ℝ)) ≤ (3621409 / 256000000 : ℝ)) 7, pow_nonneg (by linarith : (0:ℝ) ≤ (r - (39835499 / 256000000 : ℝ))) 8, pow_le_pow_left₀ (by linarith : (0:ℝ) ≤ (r - (39835499 / 256000000 : ℝ))) (by linarith : (r - (39835499 / 256000000 : ℝ)) ≤ (3621409 / 256000000 : ℝ)) 8]

set_option maxHeartbeats 1000000 in
theorem acklamH_pos_iv8 (r : ℝ) (hlo : (10864227 / 64000000 : ℝ) < r) (hup : r ≤ (47078317 / 256000000 : ℝ)) :
    0 < acklamH r := by
  simp only [acklamH, acklamP, acklamQ, acklamPd, acklamQd]
  linarith [pow_nonneg (by linarith : (0:ℝ) ≤ (r - (10864227 / 64000000 : ℝ))) 2, pow_le_pow_left₀ (by linarith : (0:ℝ) ≤ (r - (10864227 / 64000000 : ℝ))) (by linarith : (r - (10864227 / 64000000 : ℝ)) ≤ (3621409 / 256000000 : ℝ)) 2, pow_nonneg (by linarith : (0:ℝ) ≤ (r - (10864227 / 64000000 : ℝ))) 3, pow_le_pow_left₀ (by linarith : (0:ℝ) ≤ (r - (10864227 / 64000000 : ℝ))) (by linarith : (r - (10864227 / 64000000 : ℝ)) ≤ (3621409 / 256000000 : ℝ)) 3, pow_nonneg (by linarith : (0:ℝ) ≤ (r - (10864227 / 64000000 : ℝ))) 4, pow_le_pow_left₀ (by linarith : (0:ℝ) ≤ (r - (10864227 / 64000000 : ℝ))) (by linarith : (r - (10864227 / 64000000 : ℝ)) ≤ (3621409 / 256000000 : ℝ)) 4, pow_nonneg (by linarith : (0:ℝ) ≤ (r - (10864227 / 64000000 : ℝ))) 5, pow_le_pow_left₀ (by linarith : (0:ℝ) ≤ (r - (10864227 / 64000000 : ℝ))) (by linarith : (r - (10864227 / 64000000 : ℝ)) ≤ (3621409 / 256000000 : ℝ)) 5, pow_nonneg (by linarith : (0:ℝ) ≤ (r - (10864227 / 64000000 : ℝ))) 6, pow_le_pow_left₀ (by linarith : (0:ℝ) ≤ (r - (10864227 / 64000000 : ℝ))) (by linarith : (r - (10864227 / 64000000 : ℝ)) ≤ (3621409 / 256000000 : ℝ)) 6, pow_nonneg (by linarith : (0:ℝ) ≤ (r - (10864227 / 64000000 : ℝ))) 7, pow_le_pow_left₀ (by linarith : (0:ℝ) ≤ (r - (10864227 / 64000000 : ℝ))) (by linarith : (r - (10864227 / 64000000 : ℝ)) ≤ (3621409 / 256000000 : ℝ)) 7, pow_nonneg (by linarith : (0:ℝ) ≤ (r - (10864227 / 64000000 : ℝ))) 8, pow_le_pow_left₀ (by linarith : (0:ℝ) ≤ (r - (10864227 / 64000000 : ℝ))) (by linarith : (r - (10864227 / 64000000 : ℝ)) ≤ (3621409 / 256000000 : ℝ)) 8]

set_option maxHeartbeats 1000000 in
theorem acklamH_pos_iv9 (r : ℝ) (hlo : (47078317 / 256000000 : ℝ) < r) (hup : r ≤ (25349863 / 128000000 : ℝ)) :
    0 < acklamH r := by
  simp only [acklamH, acklamP, acklamQ, acklamPd, acklamQd]
  linarith [pow_nonneg (by linarith : (0:ℝ) ≤ (r - (47078317 / 256000000 : ℝ))) 2, pow_le_pow_left₀ (by linarith : (0:ℝ) ≤ (r - (47078317 / 256000000 : ℝ))) (by linarith : (r - (47078317 / 256000000 : ℝ)) ≤ (3621409 / 256000000 : ℝ)) 2, pow_nonneg (by linarith : (0:ℝ) ≤ (r - (47078317 / 256000000 : ℝ))) 3, pow_le_pow_left₀ (by linarith : (0:ℝ) ≤ (r - (47078317 / 256000000 : ℝ))) (by linarith : (r - (47078317 / 256000000 : ℝ)) ≤ (3621409 / 256000000 : ℝ)) 3, pow_nonneg (by linarith : (0:ℝ) ≤ (r - (47078317 / 256000000 : ℝ))) 4, pow_le_pow_left₀ (by linarith : (0:ℝ) ≤ (r - (47078317 / 256000000 : ℝ))) (by linarith : (r - (47078317 / 256000000 : ℝ)) ≤ (3621409 / 256000000 : ℝ)) 4, pow_nonneg (by linarith : (0:ℝ) ≤ (r - (47078317 / 256000000 : ℝ))) 5, pow_le_pow_left₀ (by linarith : (0:ℝ) ≤ (r - (47078317 / 256000000 : ℝ))) (by linarith : (r - (47078317 / 256000000 : ℝ)) ≤ (3621409 / 256000000 : ℝ)) 5, pow_nonneg (by linarith : (0:ℝ) ≤ (r - (47078317 / 256000000 : ℝ))) 6, pow_le_pow_left₀ (by linarith : (0:ℝ) ≤ (r - (47078317 / 256000000 : ℝ))) (by linarith : (r - (47078317 / 256000000 : ℝ)) ≤ (3621409 / 256000000 : ℝ)) 6, pow_nonneg (by linarith : (0:ℝ) ≤ (r - (47078317 / 256000000 : ℝ))) 7, pow_le_pow_left₀ (by linarith : (0:ℝ) ≤ (r - (47078317 / 256000000 : ℝ))) (by linarith : (r - (47078317 / 256000000 : ℝ)) ≤ (3621409 / 256000000 : ℝ)) 7, pow_nonneg (by linarith : (0:ℝ) ≤ (r - (47078317 / 256000000 : ℝ))) 8, pow_le_pow_left₀ (by linarith : (0:ℝ) ≤ (r - (47078317 / 256000000 : ℝ))) (by linarith : (r - (47078317 / 256000000 : ℝ)) ≤ (3621409 / 256000000 : ℝ)) 8]

set_option maxHeartbeats 1000000 in
theorem acklamH_pos_iv10 (r : ℝ) (hlo : (25349863 / 128000000 : ℝ) < r) (hup : r ≤ (105020861 / 512000000 : ℝ)) :
    0 < acklamH r := by
  simp only [acklamH, acklamP, acklamQ, acklamPd, acklamQd]
  linarith [pow_nonneg (by linarith : (0:ℝ) ≤ (r - (25349863 / 128000000 : ℝ))) 2, pow_le_pow_left₀ (by linarith : (0:ℝ) ≤ (r - (25349863 / 128000000 : ℝ))) (by linarith : (r - (25349863 / 128000000 : ℝ)) ≤ (3621409 / 512000000 : ℝ)) 2, pow_nonneg (by linarith : (0:ℝ) ≤ (r - (25349863 / 128000000 : ℝ))) 3, pow_le_pow_left₀ (by linarith : (0:ℝ) ≤ (r - (25349863 / 128000000 : ℝ))) (by linarith : (r - (25349863 / 128000000 : ℝ)) ≤ (3621409 / 512000000 : ℝ)) 3, pow_nonneg (by linarith : (0:ℝ) ≤ (r - (25349863 / 128000000 : ℝ))) 4, pow_le_pow_left₀ (by linarith : (0:ℝ) ≤ (r - (25349863 / 128000000 : ℝ))) (by linarith : (r - (25349863 / 128000000 : ℝ)) ≤ (3621409 / 512000000 : ℝ)) 4, pow_nonneg (by linarith : (0:ℝ) ≤ (r - (25349863 / 128000000 : ℝ))) 5, pow_le_pow_left₀ (by linarith : (0:ℝ) ≤ (r - (25349863 / 128000000 : ℝ))) (by linarith : (r - (25349863 / 128000000 : ℝ)) ≤ (3621409 / 512000000 : ℝ)) 5, pow_nonneg (by linarith : (0:ℝ) ≤ (r - (25349863 / 128000000 : ℝ))) 6, pow_le_pow_left₀ (by linarith : (0:ℝ) ≤ (r - (25349863 / 128000000 : ℝ))) (by linarith : (r - (25349863 / 128000000 : ℝ)) ≤ (3621409 / 512000000 : ℝ)) 6, pow_nonneg (by linarith : (0:ℝ) ≤ (r - (25349863 / 128000000 : ℝ))) 7, pow_le_pow_left₀ (by linarith : (0:ℝ) ≤ (r - (25349863 / 128000000 : ℝ))) (by linarith : (r - (25349863 / 128000000 : ℝ)) ≤ (3621409 / 512000000 : ℝ)) 7, pow_nonneg (by linarith : (0:ℝ) ≤ (r - (25349863 / 128000000 : ℝ))) 8, pow_le_pow_left₀ (by linarith : (0:ℝ) ≤ (r - (25349863 / 128000000 : ℝ))) (by linarith : (r - (25349863 / 128000000 : ℝ)) ≤ (3621409 / 512000000 : ℝ)) 8]

set_option maxHeartbeats 1000000 in
theorem acklamH_pos_iv11 (r : ℝ) (hlo : (105020861 / 512000000 : ℝ) < r) (hup : r ≤ (10864227 / 51200000 : ℝ)) :
    0 < acklamH r := by
  simp only [acklamH, acklamP, acklamQ, acklamPd, acklamQd]
  linarith [pow_nonneg (by linarith : (0:ℝ) ≤ (r - (105020861 / 512000000 : ℝ))) 2, pow_le_pow_left₀ (by linarith : (0:ℝ) ≤ (r - (105020861 / 512000000 : ℝ))) (by linarith : (r - (105020861 / 512000000 : ℝ)) ≤ (3621409 / 512000000 : ℝ)) 2, pow_nonneg (by linarith : (0:ℝ) ≤ (r - (105020861 / 512000000 : ℝ))) 3, pow_le_pow_left₀ (by linarith : (0:ℝ) ≤ (r - (105020861 / 512000000 : ℝ))) (by linarith : (r - (105020861 / 512000000 : ℝ)) ≤ (3621409 / 512000000 : ℝ)) 3, pow_nonneg (by linarith : (0:ℝ) ≤ (r - (105020861 / 512000000 : ℝ))) 4, pow_le_pow_left₀ (by linarith : (0:ℝ) ≤ (r - (105020861 / 512000000 : ℝ))) (by linarith : (r - (105020861 / 512000000 : ℝ)) ≤ (3621409 / 512000000 : ℝ)) 4, pow_nonneg (by linarith : (0:ℝ) ≤ (r - (105020861 / 512000000 : ℝ))) 5, pow_le_pow_left₀ (by linarith : (0:ℝ) ≤ (r - (105020861 / 512000000 : ℝ))) (by linarith : (r - (105020861 / 512000000 : ℝ)) ≤ (3621409 / 512000000 : ℝ)) 5, pow_nonneg (by linarith : (0:ℝ) ≤ (r - (105020861 / 512000000 : ℝ))) 6, pow_le_pow_left₀ (by linarith : (0:ℝ) ≤ (r - (105020861 / 512000000 : ℝ))) (by linarith : (r - (105020861 / 512000000 : ℝ)) ≤ (3621409 / 512000000 : ℝ)) 6, pow_nonneg (by linarith : (0:ℝ) ≤ (r - (105020861 / 512000000 : ℝ))) 7, pow_le_pow_left₀ (by linarith : (0:ℝ) ≤ (r - (105020861 / 512000000 : ℝ))) (by linarith : (r - (105020861 / 512000000 : ℝ)) ≤ (3621409 / 512000000 : ℝ)) 7, pow_nonneg (by linarith : (0:ℝ) ≤ (r - (105020861 / 512000000 : ℝ))) 8, pow_le_pow_left₀ (by linarith : (0:ℝ) ≤ (r - (105020861 / 512000000 : ℝ))) (by linarith : (r - (105020861 / 512000000 : ℝ)) ≤ (3621409 / 512000000 : ℝ)) 8]

set_option maxHeartbeats 1000000 in
theorem acklamH_pos_iv12 (r : ℝ) (hlo : (10864227 / 51200000 : ℝ) < r) (hup : r ≤ (112263679 / 512000000 : ℝ)) :
    0 < acklamH r := by
  simp only [acklamH, acklamP, acklamQ, acklamPd, acklamQd]
  linarith [pow_nonneg (by linarith : (0:ℝ) ≤ (r - (10864227 / 51200000 : ℝ))) 2, pow_le_pow_left₀ (by linarith : (0:ℝ) ≤ (r - (10864227 / 51200000 : ℝ))) (by linarith : (r - (10864227 / 51200000 : ℝ)) ≤ (3621409 / 512000000 : ℝ)) 2, pow_nonneg (by linarith : (0:ℝ) ≤ (r - (10864227 / 51200000 : ℝ))) 3, pow_le_pow_left₀ (by linarith : (0:ℝ) ≤ (r - (10864227 / 51200000 : ℝ))) (by linarith : (r - (10864227 / 51200000 : ℝ)) ≤ (3621409 / 512000000 : ℝ)) 3, pow_nonneg (by linarith : (0:ℝ) ≤ (r - (10864227 / 51200000 : ℝ))) 4, pow_le_pow_left₀ (by linarith : (0:ℝ) ≤ (r - (10864227 / 51200000 : ℝ))) (by linarith : (r - (10864227 / 51200000 : ℝ)) ≤ (3621409 / 512000000 : ℝ)) 4, pow_nonneg (by linarith : (0:ℝ) ≤ (r - (10864227 / 51200000 : ℝ))) 5, pow_le_pow_left₀ (by linarith : (0:ℝ) ≤ (r - (10864227 / 51200000 : ℝ))) (by linarith : (r - (10864227 / 51200000 : ℝ)) ≤ (3621409 / 512000000 : ℝ)) 5, pow_nonneg (by linarith : (0:ℝ) ≤ (r - (10864227 / 51200000 : ℝ))) 6, pow_le_pow_left₀ (by linarith : (0:ℝ) ≤ (r - (10864227 / 51200000 : ℝ))) (by linarith : (r - (10864227 / 51200000 : ℝ)) ≤ (3621409 / 512000000 : ℝ)) 6, pow_nonneg (by linarith : (0:ℝ) ≤ (r - (10864227 / 51200000 : ℝ))) 7, pow_le_pow_left₀ (by linarith : (0:ℝ) ≤ (r - (10864227 / 51200000 : ℝ))) (by linarith : (r - (10864227 / 51200000 : ℝ)) ≤ (3621409 / 512000000 : ℝ)) 7, pow_nonneg (by linarith : (0:ℝ) ≤ (r - (10864227 / 51200000 : ℝ))) 8, pow_le_pow_left₀ (by linarith : (0:ℝ) ≤ (r - (10864227 / 51200000 : ℝ))) (by linarith : (r - (10864227 / 51200000 : ℝ)) ≤ (3621409 / 512000000 : ℝ)) 8]

set_option maxHeartbeats 1000000 in
theorem acklamH_pos_iv13 (r : ℝ) (hlo : (112263679 / 512000000 : ℝ) < r) (hup : r ≤ (3621409 / 16000000 : ℝ)) :
    0 < acklamH r := by
  simp only [acklamH, acklamP, acklamQ, acklamPd, acklamQd]
  linarith [pow_nonneg (by linarith : (0:ℝ) ≤ (r - (112263679 / 512000000 : ℝ))) 2, pow_le_pow_left₀ (by linarith : (0:ℝ) ≤ (r - (112263679 / 512000000 : ℝ))) (by linarith : (r - (112263679 / 512000000 : ℝ)) ≤ (3621409 / 512000000 : ℝ)) 2, pow_nonneg (by linarith : (0:ℝ) ≤ (r - (112263679 / 512000000 : ℝ))) 3, pow_le_pow_left₀ (by linarith : (0:ℝ) ≤ (r - (112263679 / 512000000 : ℝ))) (by linarith : (r - (112263679 / 512000000 : ℝ)) ≤ (3621409 / 512000000 : ℝ)) 3, pow_nonneg (by linarith : (0:ℝ) ≤ (r - (112263679 / 512000000 : ℝ))) 4, pow_le_pow_left₀ (by linarith : (0:ℝ) ≤ (r - (112263679 / 512000000 : ℝ))) (by linarith : (r - (112263679 / 512000000 : ℝ)) ≤ (3621409 / 512000000 : ℝ)) 4, pow_nonneg (by linarith : (0:ℝ) ≤ (r - (112263679 / 512000000 : ℝ))) 5, pow_le_pow_left₀ (by linarith : (0:ℝ) ≤ (r - (112263679 / 512000000 : ℝ))) (by linarith : (r - (112263679 / 512000000 : ℝ)) ≤ (3621409 / 512000000 : ℝ)) 5, pow_nonneg (by linarith : (0:ℝ) ≤ (r - (112263679 / 512000000 : ℝ))) 6, pow_le_pow_left₀ (by linarith : (0:ℝ) ≤ (r - (112263679 / 512000000 : ℝ))) (by linarith : (r - (112263679 / 512000000 : ℝ)) ≤ (3621409 / 512000000 : ℝ)) 6, pow_nonneg (by linarith : (0:ℝ) ≤ (r - (112263679 / 512000000 : ℝ))) 7, pow_le_pow_left₀ (by linarith : (0:ℝ) ≤ (r - (112263679 / 512000000 : ℝ))) (by linarith : (r - (112263679 / 512000000 : ℝ)) ≤ (3621409 / 512000000 : ℝ)) 7, pow_nonneg (by linarith : (0:ℝ) ≤ (r - (112263679 / 512000000 : ℝ))) 8, pow_le_pow_left₀ (by linarith : (0:ℝ) ≤ (r - (112263679 / 512000000 : ℝ))) (by linarith : (r - (112263679 / 512000000 : ℝ)) ≤ (3621409 / 512000000 : ℝ)) 8]

theorem acklamH_pos (r : ℝ) (h0 : 0 ≤ r) (hc : r ≤ 0.2263380625) : 0 < acklamH r := by
  rcases le_or_lt r (3621409 / 128000000 : ℝ) with hle0 | hgt1
  · exact acklamH_pos_iv0 r h0 hle0
  rcases le_or_lt r (3621409 / 64000000 : ℝ) with hle1 | hgt2
  · exact acklamH_pos_iv1 r hgt1 hle1
  rcases le_or_lt r (10864227 / 128000000 : ℝ) with hle2 | hgt3
  · exact acklamH_pos_iv2 r hgt2 hle2
  rcases le_or_lt r (3621409 / 32000000 : ℝ) with hle3 | hgt4
  · exact acklamH_pos_iv3 r hgt3 hle3
  rcases le_or_lt r (32592681 / 256000000 : ℝ) with hle4 | hgt5
  · exact acklamH_pos_iv4 r hgt4 hle4
  rcases le_or_lt r (3621409 / 25600000 : ℝ) with hle5 | hgt6
  · exact acklamH_pos_iv5 r hgt5 hle5
  rcases le_or_lt r (39835499 / 256000000 : ℝ) with hle6 | hgt7
  · exact acklamH_pos_iv6 r hgt6 hle6
  rcases le_or_lt r (10864227 / 64000000 : ℝ) with hle7 | hgt8
  · exact acklamH_pos_iv7 r hgt7 hle7
  rcases le_or_lt r (47078317 / 256000000 : ℝ) with hle8 | hgt9
  · exact acklamH_pos_iv8 r hgt8 hle8
  rcases le_or_lt r (25349863 / 128000000 : ℝ) with hle9 | hgt10
  · exact acklamH_pos_iv9 r hgt9 hle9
  rcases le_or_lt r (105020861 / 512000000 : ℝ) with hle10 | hgt11
  · exact acklamH_pos_iv10 r hgt10 hle10
  rcases le_or_lt r (10864227 / 51200000 : ℝ) with hle11 | hgt12
  · exact acklamH_pos_iv11 r hgt11 hle11
  rcases le_or_lt r (112263679 / 512000000 : ℝ) with hle12 | hgt13
  · exact acklamH_pos_iv12 r hgt12 hle12
  exact acklamH_pos_iv13 r hgt13 (by linarith)


theorem hasDerivAt_acklamP (r : ℝ) : HasDerivAt acklamP (acklamPd r) r := by
  have hfun : acklamP = fun x : ℝ => -39.69683028665376 * x ^ 5 + 220.9460984245205 * x ^ 4 +
      -275.9285104469687 * x ^ 3 + 138.3577518672690 * x ^ 2 + -30.66479806614716 * x ^ 1 +
      2.506628277459239 := by
    funext x
    simp only [acklamP]
    ring
  have h := (((((((hasDerivAt_pow 5 r).const_mul (-39.69683028665376 : ℝ)).add
    ((hasDerivAt_pow 4 r).const_mul (220.9460984245205 : ℝ))).add
    ((hasDerivAt_pow 3 r).const_mul (-275.9285104469687 : ℝ))).add
    ((hasDerivAt_pow 2 r).const_mul (138.3577518672690 : ℝ))).add
    ((hasDerivAt_pow 1 r).const_mul (-30.66479806614716 : ℝ))).add_const
    (2.506628277459239 : ℝ))
  rw [hfun]
  convert h using 1
  simp only [acklamPd]
  push_cast
  norm_num
  ring

theorem hasDerivAt_acklamQ (r : ℝ) : HasDerivAt acklamQ (acklamQd r) r := by
  have hfun : acklamQ = fun x : ℝ => -54.47609879822406 * x ^ 5 + 161.5858368580409 * x ^ 4 +
      -155.6989798598866 * x ^ 3 + 66.80131188771972 * x ^ 2 + -13.28068155288572 * x ^ 1 +
      1 := by
    funext x
    simp only [acklamQ]
    ring
  have h := (((((((hasDerivAt_pow 5 r).const_mul (-54.47609879822406 : ℝ)).add
    ((hasDerivAt_pow 4 r).const_mul (161.5858368580409 : ℝ))).add
    ((hasDerivAt_pow 3 r).const_mul (-155.6989798598866 : ℝ))).add
    ((hasDerivAt_pow 2 r).const_mul (66.80131188771972 : ℝ))).add
    ((hasDerivAt_pow 1 r).const_mul (-13.28068155288572 : ℝ))).add_const (1 : ℝ))
  rw [hfun]
  convert h using 1
  simp only [acklamQd]
  push_cast
  norm_num
  ring

theorem hasDerivAt_acklamG (r : ℝ) (h0 : 0 ≤ r) (hc : r ≤ 0.2263380625) :
    HasDerivAt acklamG (acklamH r / (acklamQ r) ^ 2) r := by
  have h := (hasDerivAt_acklamP r).div (hasDerivAt_acklamQ r) (acklamQ_pos r h0 hc).ne'
  have hG : acklamG = fun x => acklamP x / acklamQ x := rfl
  rw [hG]
  exact h

theorem acklamG_monotoneOn :
    MonotoneOn acklamG (Set.Icc (0 : ℝ) 0.2263380625) := by
  have hsub : ∀ x ∈ interior (Set.Icc (0 : ℝ) 0.2263380625), 0 ≤ x ∧ x ≤ 0.2263380625 := by
    intro x hx
    rw [interior_Icc] at hx
    exact ⟨hx.1.le, hx.2.le⟩
  refine monotoneOn_of_deriv_nonneg (convex_Icc _ _) ?_ ?_ ?_
  · intro x hx
    exact (hasDerivAt_acklamG x hx.1 hx.2).continuousAt.continuousWithinAt
  · intro x hx
    obtain ⟨h0, hc⟩ := hsub x hx
    exact (hasDerivAt_acklamG x h0 hc).differentiableAt.differentiableWithinAt
  · intro x hx
    obtain ⟨h0, hc⟩ := hsub x hx
    rw [(hasDerivAt_acklamG x h0 hc).deriv]
    exact div_nonneg (acklamH_pos x h0 hc).le (sq_nonneg _)


theorem invNorm_central_eq (p : ℝ) (h1 : 0.02425 ≤ p) (h2 : p ≤ 0.97575) :
    invNorm p = some (invNormCentral p) := by
  have hp0 : ¬(p ≤ 0 ∨ 1 ≤ p) := by
    push_neg
    constructor <;> linarith
  rw [invNorm, if_neg hp0, if_neg (not_lt.mpr h1),
    if_neg (not_lt.mpr (by linarith : p ≤ 1 - 0.02425))]
  rfl

theorem invNormCentral_nonneg (p : ℝ) (h1 : 1 / 2 ≤ p) (h2 : p ≤ 0.97575) :
    0 ≤ invNormCentral p := by
  have hq : 0 ≤ p - 0.5 := by linarith
  have hrc : (p - 0.5) * (p - 0.5) ≤ 0.2263380625 := by nlinarith
  have hr0 : 0 ≤ (p - 0.5) * (p - 0.5) := mul_self_nonneg _
  exact div_nonneg (mul_nonneg (acklamP_pos _ hr0 hrc).le hq) (acklamQ_pos _ hr0 hrc).le

theorem invNormCentral_mono (p1 p2 : ℝ) (h1 : 1 / 2 ≤ p1) (h12 : p1 ≤ p2)
    (h2 : p2 ≤ 0.97575) : invNormCentral p1 ≤ invNormCentral p2 := by
  have hq1 : 0 ≤ p1 - 0.5 := by linarith
  have hq12 : p1 - 0.5 ≤ p2 - 0.5 := by linarith
  have hr12 : (p1 - 0.5) * (p1 - 0.5) ≤ (p2 - 0.5) * (p2 - 0.5) :=
    mul_self_le_mul_self hq1 hq12
  have hr1m : (p1 - 0.5) * (p1 - 0.5) ∈ Set.Icc (0 : ℝ) 0.2263380625 :=
    ⟨mul_self_nonneg _, by nlinarith⟩
  have hr2m : (p2 - 0.5) * (p2 - 0.5) ∈ Set.Icc (0 : ℝ) 0.2263380625 :=
    ⟨mul_self_nonneg _, by nlinarith⟩
  have hG := acklamG_monotoneOn hr1m hr2m hr12
  have hg2 : 0 ≤ acklamG ((p2 - 0.5) * (p2 - 0.5)) :=
    div_nonneg (acklamP_pos _ hr2m.1 hr2m.2).le (acklamQ_pos _ hr2m.1 hr2m.2).le
  have key : acklamG ((p1 - 0.5) * (p1 - 0.5)) * (p1 - 0.5)
      ≤ acklamG ((p2 - 0.5) * (p2 - 0.5)) * (p2 - 0.5) := mul_le_mul hG hq12 hq1 hg2
  calc invNormCentral p1 = acklamG ((p1 - 0.5) * (p1 - 0.5)) * (p1 - 0.5) := by
        simp only [invNormCentral, acklamG]
        ring
    _ ≤ acklamG ((p2 - 0.5) * (p2 - 0.5)) * (p2 - 0.5) := key
    _ = invNormCentral p2 := by
        simp only [invNormCentral, acklamG]
        ring

theorem computeSampleSize_mde_antitone (sigma2 alpha power mde1 mde2 : ℝ) (n1 n2 : ℤ)
    (hs : 0 < sigma2) (h1 : 0 < mde1) (h12 : mde1 ≤ mde2)
    (hn1 : computeSampleSize sigma2 mde1 alpha power = some n1)
    (hn2 : computeSampleSize sigma2 mde2 alpha power = some n2) : n2 ≤ n1 := by
  cases hA : invNorm (1 - alpha / 2) with
  | none =>
    unfold computeSampleSize at hn1
    rw [hA] at hn1
    exact absurd hn1 (by simp)
  | some zA =>
    cases hP : invNorm power with
    | none =>
      unfold computeSampleSize at hn1
      rw [hA, hP] at hn1
      exact absurd hn1 (by simp)
    | some zP =>
      rw [computeSampleSize_eq_of sigma2 mde1 alpha power zA zP hA hP,
        if_pos ⟨h1, hs⟩] at hn1
      rw [computeSampleSize_eq_of sigma2 mde2 alpha power zA zP hA hP,
        if_pos ⟨by linarith, hs⟩] at hn2
      have hnum : 0 ≤ 2 * (zA + zP) * (zA + zP) * sigma2 := by
        nlinarith [mul_self_nonneg (zA + zP)]
      have hden : 2 * (zA + zP) * (zA + zP) * sigma2 / (mde2 * mde2)
          ≤ 2 * (zA + zP) * (zA + zP) * sigma2 / (mde1 * mde1) := by
        gcongr
        all_goals nlinarith [mul_self_nonneg (zA + zP)]
      have := max_le_max (le_refl (2 : ℤ)) (Int.ceil_le_ceil hden)
      rw [Option.some.inj hn1, Option.some.inj hn2] at *
      omega

theorem computeSampleSize_power_mono_central (sigma2 mde alpha p1 p2 : ℝ) (n1 n2 : ℤ)
    (hs : 0 < sigma2) (hm : 0 < mde) (ha1 : 0.0485 ≤ alpha) (ha2 : alpha ≤ 1)
    (hp1 : 1 / 2 ≤ p1) (hp12 : p1 ≤ p2) (hp2 : p2 ≤ 0.97575)
    (hn1 : computeSampleSize sigma2 mde alpha p1 = some n1)
    (hn2 : computeSampleSize sigma2 mde alpha p2 = some n2) : n1 ≤ n2 := by
  have hA : invNorm (1 - alpha / 2) = some (invNormCentral (1 - alpha / 2)) :=
    invNorm_central_eq _ (by linarith) (by linarith)
  have hP1 : invNorm p1 = some (invNormCentral p1) :=
    invNorm_central_eq _ (by linarith) (by linarith)
  have hP2 : invNorm p2 = some (invNormCentral p2) :=
    invNorm_central_eq _ (by linarith) (by linarith)
  rw [computeSampleSize_eq_of sigma2 mde alpha p1 _ _ hA hP1, if_pos ⟨hm, hs⟩] at hn1
  rw [computeSampleSize_eq_of sigma2 mde alpha p2 _ _ hA hP2, if_pos ⟨hm, hs⟩] at hn2
  have hzA : 0 ≤ invNormCentral (1 - alpha / 2) :=
    invNormCentral_nonneg _ (by linarith) (by linarith)
  have hz1 : 0 ≤ invNormCentral p1 := invNormCentral_nonneg _ hp1 (by linarith)
  have hz12 : invNormCentral p1 ≤ invNormCentral p2 := invNormCentral_mono _ _ hp1 hp12 hp2
  have hsq : (invNormCentral (1 - alpha / 2) + invNormCentral p1)
        * (invNormCentral (1 - alpha / 2) + invNormCentral p1)
      ≤ (invNormCentral (1 - alpha / 2) + invNormCentral p2)
        * (invNormCentral (1 - alpha / 2) + invNormCentral p2) :=
    mul_self_le_mul_self (by linarith) (by linarith)
  have hfrac : 2 * (invNormCentral (1 - alpha / 2) + invNormCentral p1)
        * (invNormCentral (1 - alpha / 2) + invNormCentral p1) * sigma2 / (mde * mde)
      ≤ 2 * (invNormCentral (1 - alpha / 2) + invNormCentral p2)
        * (invNormCentral (1 - alpha / 2) + invNormCentral p2) * sigma2 / (mde * mde) := by
    apply div_le_div_of_nonneg_right ?_ (by positivity)
    nlinarith
  have := max_le_max (le_refl (2 : ℤ)) (Int.ceil_le_ceil hfrac)
  rw [Option.some.inj hn1, Option.some.inj hn2] at *
  omega

/-- C5 (amended): (a) for fixed `σ² > 0`, `α`, `power`, `computeSampleSize` is
non-increasing in the absolute MDE, in full generality: `0 < mde1 ≤ mde2`
gives `n(mde2) ≤ n(mde1)` whenever both are defined.  (b) For fixed MDE and
`α`, increasing the power does not decrease n *provided the critical values
stay in the regime where `zα + zPower ≥ 0`* — proved here for `α ∈ [0.0485, 1]`
and powers in `[0.5, 0.97575]` (the central regime of the quantile
approximation, which contains the conventional parameters).  Without that
proviso (b) is false: for very low powers `zα + zPower < 0` and its square
*shrinks* as power grows — see the counterexample, where raising the power
from 0.03 to 0.1 drops the recommendation from 7 to 3. -/
theorem computeSampleSize_monotonicity :
    (∀ sigma2 alpha power mde1 mde2 : ℝ, ∀ n1 n2 : ℤ, 0 < sigma2 → 0 < mde1 → mde1 ≤ mde2 →
      computeSampleSize sigma2 mde1 alpha power = some n1 →
      computeSampleSize sigma2 mde2 alpha power = some n2 → n2 ≤ n1) ∧
    (∀ sigma2 mde alpha p1 p2 : ℝ, ∀ n1 n2 : ℤ, 0 < sigma2 → 0 < mde →
      0.0485 ≤ alpha → alpha ≤ 1 → 1 / 2 ≤ p1 → p1 ≤ p2 → p2 ≤ 0.97575 →
      computeSampleSize sigma2 mde alpha p1 = some n1 →
      computeSampleSize sigma2 mde alpha p2 = some n2 → n1 ≤ n2) :=
  ⟨fun sigma2 alpha power mde1 mde2 n1 n2 hs h1 h12 hn1 hn2 =>
    computeSampleSize_mde_antitone sigma2 alpha power mde1 mde2 n1 n2 hs h1 h12 hn1 hn2,
  fun sigma2 mde alpha p1 p2 n1 n2 hs hm ha1 ha2 hp1 hp12 hp2 hn1 hn2 =>
    computeSampleSize_power_mono_central sigma2 mde alpha p1 p2 n1 n2 hs hm ha1 ha2 hp1
      hp12 hp2 hn1 hn2⟩

theorem computeSampleSize_val_09_003 : computeSampleSize 1 1 0.9 0.03 = some 7 := by
  have hA : invNorm (1 - (0.9 : ℝ) / 2)
      = some (34571757731369189311846592 / 275118471915278352573392665 : ℝ) := by
    rw [show (1 : ℝ) - 0.9 / 2 = 0.55 by norm_num]
    exact invNorm_val_055
  rw [computeSampleSize_eq_of 1 1 0.9 0.03 _ _ hA invNorm_val_003, if_pos (by norm_num)]
  have hc : (⌈(2 * ((34571757731369189311846592 / 275118471915278352573392665 : ℝ)
        + -(98695988066827461001751166241376 / 52475714374021932893744314752925))
      * (34571757731369189311846592 / 275118471915278352573392665
        + -(98695988066827461001751166241376 / 52475714374021932893744314752925))
      * 1 / (1 * 1))⌉) = 7 := by
    rw [Int.ceil_eq_iff]
    constructor <;> norm_num
  rw [hc]
  norm_num

theorem computeSampleSize_val_09_01 : computeSampleSize 1 1 0.9 0.1 = some 3 := by
  have hA : invNorm (1 - (0.9 : ℝ) / 2)
      = some (34571757731369189311846592 / 275118471915278352573392665 : ℝ) := by
    rw [show (1 : ℝ) - 0.9 / 2 = 0.55 by norm_num]
    exact invNorm_val_055
  rw [computeSampleSize_eq_of 1 1 0.9 0.1 _ _ hA invNorm_val_01, if_pos (by norm_num)]
  have hc : (⌈(2 * ((34571757731369189311846592 / 275118471915278352573392665 : ℝ)
        + -(33127729296663180203 / 25849704548478267920))
      * (34571757731369189311846592 / 275118471915278352573392665
        + -(33127729296663180203 / 25849704548478267920)) * 1 / (1 * 1))⌉) = 3 := by
    rw [Int.ceil_eq_iff]
    constructor <;> norm_num
  rw [hc]
  norm_num

/-- C5 (counterexample): at `σ² = 1`, `mdeAbs = 1`, `α = 0.9`, raising the
power from `0.03` to `0.1` *decreases* the recommended n from 7 to 3: here
`zα + zPower ≈ 0.126 - 1.88 < 0`, and the code squares the sum without a sign
check, so a larger power brings the square closer to zero.  Increasing power
can therefore decrease the recommended n, refuting the claim as stated. -/
theorem computeSampleSize_power_not_monotone :
    computeSampleSize 1 1 0.9 0.03 = some 7 ∧
    computeSampleSize 1 1 0.9 0.1 = some 3 ∧
    (0.03 : ℝ) < 0.1 ∧ (3 : ℤ) < 7 :=
  ⟨computeSampleSize_val_09_003, computeSampleSize_val_09_01, by norm_num, by norm_num⟩

theorem computeSampleSize_val_09_055 : computeSampleSize 1 1 0.9 0.55 = some 2 := by
  have hA : invNorm (1 - (0.9 : ℝ) / 2)
      = some (34571757731369189311846592 / 275118471915278352573392665 : ℝ) := by
    rw [show (1 : ℝ) - 0.9 / 2 = 0.55 by norm_num]
    exact invNorm_val_055
  rw [computeSampleSize_eq_of 1 1 0.9 0.55 _ _ hA invNorm_val_055, if_pos (by norm_num)]
  have hc : (⌈(2 * ((34571757731369189311846592 / 275118471915278352573392665 : ℝ)
        + 34571757731369189311846592 / 275118471915278352573392665)
      * (34571757731369189311846592 / 275118471915278352573392665
        + 34571757731369189311846592 / 275118471915278352573392665) * 1 / (1 * 1))⌉) = 1 := by
    rw [Int.ceil_eq_iff]
    constructor <;> norm_num
  rw [hc]
  norm_num

theorem computeSampleSize_val_09_08_mde1 : computeSampleSize 1 1 0.9 0.8 = some 2 := by
  have hA : invNorm (1 - (0.9 : ℝ) / 2)
      = some (34571757731369189311846592 / 275118471915278352573392665 : ℝ) := by
    rw [show (1 : ℝ) - 0.9 / 2 = 0.55 by norm_num]
    exact invNorm_val_055
  rw [computeSampleSize_eq_of 1 1 0.9 0.8 _ _ hA invNorm_val_08, if_pos (by norm_num)]
  have hc : (⌈(2 * ((34571757731369189311846592 / 275118471915278352573392665 : ℝ)
        + 510453168914629834438182 / 606511752633550076992765)
      * (34571757731369189311846592 / 275118471915278352573392665
        + 510453168914629834438182 / 606511752633550076992765) * 1 / (1 * 1))⌉) = 2 := by
    rw [Int.ceil_eq_iff]
    constructor <;> norm_num
  rw [hc]
  norm_num

theorem computeSampleSize_val_09_08_mde2 : computeSampleSize 1 2 0.9 0.8 = some 2 := by
  have hA : invNorm (1 - (0.9 : ℝ) / 2)
      = some (34571757731369189311846592 / 275118471915278352573392665 : ℝ) := by
    rw [show (1 : ℝ) - 0.9 / 2 = 0.55 by norm_num]
    exact invNorm_val_055
  rw [computeSampleSize_eq_of 1 2 0.9 0.8 _ _ hA invNorm_val_08, if_pos (by norm_num)]
  have hc : (⌈(2 * ((34571757731369189311846592 / 275118471915278352573392665 : ℝ)
        + 510453168914629834438182 / 606511752633550076992765)
      * (34571757731369189311846592 / 275118471915278352573392665
        + 510453168914629834438182 / 606511752633550076992765) * 1 / (2 * 2))⌉) = 1 := by
    rw [Int.ceil_eq_iff]
    constructor <;> norm_num
  rw [hc]
  norm_num

theorem computeSampleSize_monotonicity_witness : (2 : ℤ) ≤ 2 ∧ (2 : ℤ) ≤ 2 :=
  ⟨computeSampleSize_monotonicity.1 1 0.9 0.8 1 2 2 2 (by norm_num) (by norm_num)
      (by norm_num) computeSampleSize_val_09_08_mde1 computeSampleSize_val_09_08_mde2,
    computeSampleSize_monotonicity.2 1 1 0.9 0.55 0.8 2 2 (by norm_num) (by norm_num)
      (by norm_num) (by norm_num) (by norm_num) (by norm_num) (by norm_num)
      computeSampleSize_val_09_055 computeSampleSize_val_09_08_mde1⟩
